import Mathlib

/-!
# A verification development for the Code Quality Intelligence Agent

This file gives a shallow embedding, in Lean 4, of the core analysis pipeline
of the `code-quality-agent` TypeScript repository, and proves (or refutes)
the stated properties of its specification against that embedding.

Modelling conventions, used consistently below:

* TypeScript strings are Lean `String`s (sequences of `Char`); per-line
  scanning works on `List Char`.
* JavaScript numbers appearing in arithmetic are modelled exactly over `ℚ`
  (all quantities involved are small integers and exact divisions, far below
  any double-precision rounding threshold); `Math.round` is
  round-half-toward-positive-infinity, `Math.min`/`Math.max` are `min`/`max`.
* Regular-expression literals from the source are translated into an explicit
  regex AST (`RE`) matched by Brzozowski derivatives; `RegExp.prototype.test`
  (search anywhere in the string) is `jsTest`.  The `$` anchor, which occurs
  in a few source patterns (the literals contain `$$` sequences), is handled
  by end-anchored variants, and a pattern that requires characters *after* an
  end anchor can never match and is translated as the empty regex `RE.emp`.
* The external generative-model transport is an oracle
  `gen : String → Except String String`; `Date.now()` and
  `new Date().toISOString()` are explicit parameters; the environment variable
  `GEMINI_API_KEY` is an `Option String` parameter.
* `throw`/`try`/`catch` become `Except`/`Option` flow.
-/

set_option maxRecDepth 20000

namespace CQA

/-! ## JavaScript string and number primitives -/

/-- The ASCII portion of JavaScript's `\s` character class
(space, tab, LF, VT, FF, CR, NBSP). -/
def isJsSpace (c : Char) : Bool :=
  c.toNat = 32 || c.toNat = 9 || c.toNat = 10 || c.toNat = 11 ||
  c.toNat = 12 || c.toNat = 13 || c.toNat = 160

/-- JavaScript's `\w` character class `[A-Za-z0-9_]`. -/
def isWordChar (c : Char) : Bool :=
  (Char.ofNat 97 ≤ c && c ≤ Char.ofNat 122) ||
  (Char.ofNat 65 ≤ c && c ≤ Char.ofNat 90) ||
  (Char.ofNat 48 ≤ c && c ≤ Char.ofNat 57) || c.toNat = 95

/-- Single quote, double quote or backtick: the `['"\x60]` class used by the
security analyzer's patterns. -/
def isQuoteChar (c : Char) : Bool :=
  c.toNat = 39 || c.toNat = 34 || c.toNat = 96

/-- `String.prototype.split` with a one-character separator (used with
`"\n"` and `","`): splitting the empty string yields `[""]`, exactly as in
JavaScript. -/
def jsSplit (s : String) (sep : Char) : List String :=
  ((s.data.splitOn sep).map List.asString)

/-- Does `sub` occur (contiguously) inside `l`? -/
def containsSeg (sub : List Char) : List Char → Bool
  | [] => sub.isEmpty
  | c :: cs => List.isPrefixOf sub (c :: cs) || containsSeg sub cs

/-- `String.prototype.includes`. -/
def jsIncludes (s sub : String) : Bool :=
  containsSeg sub.data s.data

/-- `String.prototype.toLowerCase` (ASCII; defined over the character list
so that it reduces in the kernel). -/
def jsToLower (s : String) : String := (s.data.map Char.toLower).asString

/-- `String.prototype.toUpperCase` (ASCII). -/
def jsToUpper (s : String) : String := (s.data.map Char.toUpper).asString

/-- `String.prototype.trim`. -/
def jsTrim (s : String) : String :=
  ((s.data.dropWhile isJsSpace).reverse.dropWhile isJsSpace).reverse.asString

/-- `String.prototype.endsWith`. -/
def jsEndsWith (s suffix : String) : Bool :=
  List.isPrefixOf suffix.data.reverse s.data.reverse

/-- `String.prototype.slice(0, n)`. -/
def jsSlice0 (s : String) (n : Nat) : String :=
  (s.data.take n).asString

/-- `Array.prototype.slice(-n)` (the last `n` elements, or all of them when
the list is shorter). -/
def jsTakeLast (l : List α) (n : Nat) : List α :=
  l.drop (l.length - n)

/-- `Math.round` over the exact rationals: round half toward `+∞`. -/
def jsRound (q : ℚ) : ℤ := ⌊q + 1 / 2⌋

/-- Little-endian decimal digit characters of `n` (with explicit fuel, so
that the definition is structural and reduces in the kernel; `fuel ≥ n`
suffices). -/
def natDigitsAux : Nat → Nat → List Char
  | 0, _ => []
  | fuel + 1, n =>
      if n = 0 then [] else Nat.digitChar (n % 10) :: natDigitsAux fuel (n / 10)

/-- Decimal rendering of a natural number, i.e. the result of interpolating
it into a template string (`${n}`). -/
def natToString (n : Nat) : String :=
  if n = 0 then "0" else (natDigitsAux n n).reverse.asString

/-- Decimal rendering of an integer. -/
def intToString (n : ℤ) : String :=
  if n < 0 then "-" ++ natToString n.natAbs else natToString n.natAbs

/-- Rendering of a JavaScript number modelled as a rational.  All numbers the
claims evaluate are integers; a non-integral rational is rendered as a
fraction (a deviation from JavaScript's decimal notation that no claim
exercises). -/
def ratToString (q : ℚ) : String :=
  if q.den = 1 then intToString q.num
  else intToString q.num ++ "/" ++ natToString q.den

/-! ## A small regex engine (Brzozowski derivatives)

The source's `RegExp` literals are translated into this AST.  `tok p`
matches one character satisfying `p`.  Matching is decidable and
executable; `jsTest` is the unanchored `RegExp.prototype.test`. -/

inductive RE where
  | emp : RE
  | eps : RE
  | tok : (Char → Bool) → RE
  | cat : RE → RE → RE
  | alt : RE → RE → RE
  | star : RE → RE

namespace RE

def nullable : RE → Bool
  | emp => false
  | eps => true
  | tok _ => false
  | cat a b => nullable a && nullable b
  | alt a b => nullable a || nullable b
  | star _ => true

/-- Smart concatenation (keeps derivatives small). -/
def mkCat : RE → RE → RE
  | emp, _ => emp
  | _, emp => emp
  | eps, b => b
  | a, eps => a
  | a, b => cat a b

/-- Smart alternation (keeps derivatives small). -/
def mkAlt : RE → RE → RE
  | emp, b => b
  | a, emp => a
  | a, b => alt a b

def deriv (r : RE) (c : Char) : RE :=
  match r with
  | emp => emp
  | eps => emp
  | tok p => if p c then eps else emp
  | cat a b =>
      if nullable a then mkAlt (mkCat (deriv a c) b) (deriv b c)
      else mkCat (deriv a c) b
  | alt a b => mkAlt (deriv a c) (deriv b c)
  | star a => mkCat (deriv a c) (star a)

/-- Anchored (whole-list) match. -/
def matchesList (r : RE) (s : List Char) : Bool :=
  nullable (s.foldl deriv r)

end RE

/-- One arbitrary character (`[\s\S]`, and the padding of an unanchored
search). -/
def reAny : RE := RE.tok (fun _ => true)

/-- `.` — any character except a line feed. -/
def reDot : RE := RE.tok (fun c => c.toNat ≠ 10)

/-- Concatenation of a list of regexes. -/
def reSeq (l : List RE) : RE := l.foldr RE.cat RE.eps

/-- Ordered alternation of a list of regexes. -/
def reAlts (l : List RE) : RE := l.foldr RE.alt RE.emp

/-- A single literal character. -/
def reC (c : Char) : RE := RE.tok (fun x => x = c)

/-- A literal string. -/
def reLit (s : String) : RE := reSeq (s.data.map reC)

/-- `r?`. -/
def reOpt (r : RE) : RE := RE.alt r RE.eps

/-- `r+`. -/
def rePlus (r : RE) : RE := RE.cat r (RE.star r)

/-- `r{n,}`: at least `n` repetitions. -/
def reRepAtLeast : Nat → RE → RE
  | 0, r => RE.star r
  | n + 1, r => RE.cat r (reRepAtLeast n r)

def reWs : RE := RE.tok isJsSpace
def reWsStar : RE := RE.star reWs
def reWsPlus : RE := rePlus reWs
def reQuote : RE := RE.tok isQuoteChar
def reNotQuote : RE := RE.tok (fun c => !isQuoteChar c)
def reDotStar : RE := RE.star reDot

/-- `RegExp.prototype.test` for an anchor-free pattern: search anywhere. -/
def jsTest (r : RE) (s : String) : Bool :=
  RE.matchesList (RE.cat (RE.star reAny) (RE.cat r (RE.star reAny))) s.data

/-- `test` for a case-insensitive (`/i`) pattern, written with lowercase
literals: lowercase the subject.  (ASCII-exact for the characters these
patterns use.) -/
def jsTestCI (r : RE) (s : String) : Bool := jsTest r (jsToLower s)

/-- `test` for a pattern of the form `X$` (`$` spelled `$$…` in the source
literals): the match must end at the end of the subject. -/
def jsTestEnd (r : RE) (s : String) : Bool :=
  RE.matchesList (RE.cat (RE.star reAny) r) s.data

/-- Case-insensitive end-anchored `test`. -/
def jsTestEndCI (r : RE) (s : String) : Bool := jsTestEnd r (jsToLower s)

/-! ## Word-boundary (`\b`) keyword scanning

Several source patterns have the shape `\b(kw1|kw2|…)\b`,
`\b(?:kw1|…)\s+(\w+)` and so on.  `\b` is a boundary between a `\w`
character and a non-`\w` character (the outside of the string counting as
non-word).  These are matched by a direct scanner which mirrors the
leftmost-position, first-alternative semantics of JavaScript regexes. -/

/-- Is the (optional) character a word character?  `none` is the outside of
the string. -/
def wordOpt : Option Char → Bool
  | none => false
  | some c => isWordChar c

/-- If `s` starts with `kw`, return the remainder. -/
def stripKw : List Char → List Char → Option (List Char)
  | [], rest => some rest
  | _ :: _, [] => none
  | k :: ks, c :: cs => if c = k then stripKw ks cs else none

/-- Try the alternatives of `\b(kw1|kw2|…)\b` at the current position
(`prev` is the character before it); return the length of the first
alternative that matches with both boundaries. -/
def kwBoundedHere (kws : List (List Char)) (prev : Option Char) (s : List Char) :
    Option Nat :=
  match kws with
  | [] => none
  | kw :: rest =>
      match kw, stripKw kw s with
      | k0 :: _, some after =>
          if (wordOpt prev != isWordChar k0) &&
             (isWordChar (kw.getLastD k0) != wordOpt after.head?) then
            some kw.length
          else kwBoundedHere rest prev s
      | _, _ => kwBoundedHere rest prev s

/-- `test` of `\b(kw1|…)\b`: does the pattern match anywhere? -/
def testKwBoundedAux (kws : List (List Char)) : Option Char → List Char → Bool
  | _, [] => false
  | prev, c :: cs =>
      (kwBoundedHere kws prev (c :: cs)).isSome || testKwBoundedAux kws (some c) cs

def testKwBounded (kws : List String) (s : String) : Bool :=
  testKwBoundedAux (kws.map String.data) none s.data

/-- Case-insensitive variant (keywords written lowercase). -/
def testKwBoundedCI (kws : List String) (s : String) : Bool :=
  testKwBounded kws (jsToLower s)

/-- The number of (non-overlapping, leftmost-first) matches of the global
pattern `\b(kw1|…)\b/g`, i.e. `line.match(p).length`.  `skip` counts
characters still inside the previous match. -/
def countKwBoundedAux (kws : List (List Char)) :
    Option Char → Nat → List Char → Nat
  | _, _, [] => 0
  | _prev, skip + 1, c :: cs => countKwBoundedAux kws (some c) skip cs
  | prev, 0, c :: cs =>
      match kwBoundedHere kws prev (c :: cs) with
      | some L => 1 + countKwBoundedAux kws (some c) (L - 1) cs
      | none => countKwBoundedAux kws (some c) 0 cs

def countKwBounded (kws : List String) (s : String) : Nat :=
  countKwBoundedAux (kws.map String.data) none 0 s.data

/-- At the current position, try to match `\b(?:kw1|…)\s+(\w+)` and return
the capture (the maximal `\w+` run after the whitespace). -/
def fnCapHere (kws : List (List Char)) (prev : Option Char) (s : List Char) :
    Option (List Char) :=
  match kws with
  | [] => none
  | kw :: rest =>
      match kw, stripKw kw s with
      | k0 :: _, some after =>
          if wordOpt prev != isWordChar k0 then
            let sp := after.takeWhile isJsSpace
            let word := (after.drop sp.length).takeWhile isWordChar
            if sp.length ≥ 1 && word.length ≥ 1 then some word
            else fnCapHere rest prev s
          else fnCapHere rest prev s
      | _, _ => fnCapHere rest prev s

/-- `line.match(/\b(?:kw1|…)\s+(\w+)/)`: the capture of the leftmost match,
if any. -/
def fnDeclMatchAux (kws : List (List Char)) : Option Char → List Char → Option (List Char)
  | _, [] => none
  | prev, c :: cs =>
      match fnCapHere kws prev (c :: cs) with
      | some w => some w
      | none => fnDeclMatchAux kws (some c) cs

def fnDeclMatch (kws : List String) (s : String) : Option String :=
  (fnDeclMatchAux (kws.map String.data) none s.data).map List.asString

/-- At the current position, try `\b(?:kw1|…)\s+(\w+)\s*$`: keyword,
whitespace, a word, optional trailing whitespace, then the end of the
string.  Returns the captured word.  (This is the shape of the
`checkParameterCount` pattern, whose `\(`…`\)` were mangled to `$$`
end anchors in the source.) -/
def fnEndCapHere (kws : List (List Char)) (prev : Option Char) (s : List Char) :
    Option (List Char) :=
  match kws with
  | [] => none
  | kw :: rest =>
      match kw, stripKw kw s with
      | k0 :: _, some after =>
          if wordOpt prev != isWordChar k0 then
            let sp := after.takeWhile isJsSpace
            let word := (after.drop sp.length).takeWhile isWordChar
            let tail := (after.drop (sp.length + word.length)).takeWhile isJsSpace
            if sp.length ≥ 1 && word.length ≥ 1 &&
               after.length = sp.length + word.length + tail.length then some word
            else fnEndCapHere rest prev s
          else fnEndCapHere rest prev s
      | _, _ => fnEndCapHere rest prev s

def fnEndMatchAux (kws : List (List Char)) : Option Char → List Char → Option (List Char)
  | _, [] => none
  | prev, c :: cs =>
      match fnEndCapHere kws prev (c :: cs) with
      | some w => some w
      | none => fnEndMatchAux kws (some c) cs

def fnEndMatch (kws : List String) (s : String) : Option String :=
  (fnEndMatchAux (kws.map String.data) none s.data).map List.asString

/-! ## Data model (`src/types.ts`)

`CodeFile`, `QualityIssue` and `QualityReport`, with the `type`, `severity`
and `effort` string unions of the TypeScript declaration as closed
enumerations. -/

inductive Severity where
  | low | medium | high | critical
deriving DecidableEq, Repr

inductive IssueType where
  | security | performance | duplication | complexity | testing
  | documentation | maintainability
deriving DecidableEq, Repr

inductive Effort where
  | low | medium | high
deriving DecidableEq, Repr

structure Issue where
  id : String
  type : IssueType
  severity : Severity
  title : String
  description : String
  file : String
  line : Option ℚ
  suggestion : String
  impact : String
  effort : Effort
deriving DecidableEq, Repr

structure CodeFile where
  path : String
  content : String
  language : String
  size : Nat
deriving DecidableEq, Repr

/-- `severityBreakdown`: a record with the four fixed keys `low`, `medium`,
`high`, `critical` (initialised to 0 and then incremented). -/
structure Breakdown where
  low : Nat
  medium : Nat
  high : Nat
  critical : Nat
deriving DecidableEq, Repr

structure Metrics where
  codeComplexity : ℤ
  testCoverage : ℤ
  duplicationPercentage : ℤ
  maintainabilityIndex : ℤ
deriving DecidableEq, Repr

structure Summary where
  totalFiles : Nat
  totalLines : Nat
  languages : List String
  issueCount : Nat
  severityBreakdown : Breakdown
deriving DecidableEq, Repr

structure Report where
  summary : Summary
  issues : List Issue
  metrics : Metrics
  recommendations : List String
  timestamp : String
deriving DecidableEq, Repr

/-- The string names of the severity enum (for template interpolation). -/
def sevToString : Severity → String
  | .low => "low" | .medium => "medium" | .high => "high" | .critical => "critical"

def typeToString : IssueType → String
  | .security => "security" | .performance => "performance"
  | .duplication => "duplication" | .complexity => "complexity"
  | .testing => "testing" | .documentation => "documentation"
  | .maintainability => "maintainability"

/-- Reading a severity string back into the enum (the inverse used when the
model's JSON reply carries a severity; strings outside the declared union of
`types.ts` are not representable in the typed model and fall back to the
same default as a missing field). -/
def sevFromString : String → Option Severity
  | "low" => some .low | "medium" => some .medium
  | "high" => some .high | "critical" => some .critical
  | _ => none

def typeFromString : String → Option IssueType
  | "security" => some .security | "performance" => some .performance
  | "duplication" => some .duplication | "complexity" => some .complexity
  | "testing" => some .testing | "documentation" => some .documentation
  | "maintainability" => some .maintainability
  | _ => none

def effortFromString : String → Option Effort
  | "low" => some .low | "medium" => some .medium | "high" => some .high
  | _ => none

/-- The left curly-brace character. -/
def lbraceC : Char := Char.ofNat 123

/-- The right curly-brace character. -/
def rbraceC : Char := Char.ofNat 125

/-! ## SecurityAnalyzer (`src/analyzers/security-analyzer.ts`)

Per-line regex scans.  Every check iterates `lines.forEach((line, index))`
and, for each pattern in its table that tests positive on the line, pushes an
identical issue record; the translation therefore replicates that record
once per matching pattern, in table order. -/

namespace SecurityAnalyzer

/-- `/query\s*\(\s*['"\x60][^'"\x60]*\$\{[^}]+\}[^'"\x60]*['"\x60]/i` -/
def sqlPat1 : RE :=
  reSeq [reLit "query", reWsStar, reC (Char.ofNat 40), reWsStar, reQuote,
    RE.star reNotQuote, reC (Char.ofNat 36), reC lbraceC,
    rePlus (RE.tok (fun c => c ≠ rbraceC)), reC rbraceC,
    RE.star reNotQuote, reQuote]

/-- `/execute\s*\(\s*['"\x60][^'"\x60]*\+[^'"\x60]*['"\x60]/i` -/
def sqlPat2 : RE :=
  reSeq [reLit "execute", reWsStar, reC (Char.ofNat 40), reWsStar, reQuote,
    RE.star reNotQuote, reC (Char.ofNat 43), RE.star reNotQuote, reQuote]

/-- `/SELECT\s+.*\+.*FROM/i` -/
def sqlPat3 : RE :=
  reSeq [reLit "select", reWsPlus, reDotStar, reC (Char.ofNat 43), reDotStar,
    reLit "from"]

/-- `/INSERT\s+.*\+.*VALUES/i` -/
def sqlPat4 : RE :=
  reSeq [reLit "insert", reWsPlus, reDotStar, reC (Char.ofNat 43), reDotStar,
    reLit "values"]

def sqlPatterns : List RE := [sqlPat1, sqlPat2, sqlPat3, sqlPat4]

def mkSqlIssue (file : CodeFile) (index : Nat) : Issue :=
  { id := "sql-injection-" ++ natToString index
    type := .security
    severity := .critical
    title := "Potential SQL Injection"
    description := "Dynamic SQL query construction detected. This could lead to SQL injection vulnerabilities."
    file := file.path
    line := some ((index : ℚ) + 1)
    suggestion := "Use parameterized queries or prepared statements instead of string concatenation."
    impact := "Attackers could execute arbitrary SQL commands, potentially accessing or modifying sensitive data."
    effort := .medium }

def checkSqlInjection (file : CodeFile) (lines : List String) : List Issue :=
  lines.enum.flatMap fun (index, line) =>
    (sqlPatterns.filter (fun p => jsTestCI p line)).map fun _ => mkSqlIssue file index

/-- `/innerHTML\s*=\s*.*\+/i`, `/document\.write\s*\(/i`, `/eval\s*\(/i`,
`/dangerouslySetInnerHTML/i` -/
def xssPatterns : List RE :=
  [ reSeq [reLit "innerhtml", reWsStar, reC (Char.ofNat 61), reWsStar,
      reDotStar, reC (Char.ofNat 43)],
    reSeq [reLit "document.write", reWsStar, reC (Char.ofNat 40)],
    reSeq [reLit "eval", reWsStar, reC (Char.ofNat 40)],
    reLit "dangerouslysetinnerhtml" ]

def mkXssIssue (file : CodeFile) (index : Nat) : Issue :=
  { id := "xss-" ++ natToString index
    type := .security
    severity := .high
    title := "Potential XSS Vulnerability"
    description := "Dynamic HTML content insertion detected without proper sanitization."
    file := file.path
    line := some ((index : ℚ) + 1)
    suggestion := "Sanitize user input before inserting into DOM or use safe DOM manipulation methods."
    impact := "Attackers could inject malicious scripts that execute in users' browsers."
    effort := .medium }

def checkXss (file : CodeFile) (lines : List String) : List Issue :=
  lines.enum.flatMap fun (index, line) =>
    (xssPatterns.filter (fun p => jsTestCI p line)).map fun _ => mkXssIssue file index

/-- `[:=]` -/
def reColonEq : RE := RE.tok (fun c => c.toNat = 58 || c.toNat = 61)

/-- `/(?:password|pwd|pass)\s*[:=]\s*['"\x60][^'"\x60]{3,}['"\x60]/i` and the
three analogous secret patterns. -/
def secretPatterns : List RE :=
  [ reSeq [reAlts [reLit "password", reLit "pwd", reLit "pass"], reWsStar,
      reColonEq, reWsStar, reQuote, reRepAtLeast 3 reNotQuote, reQuote],
    reSeq [reAlts [reSeq [reLit "api", reOpt (RE.tok (fun c => c.toNat = 95 || c.toNat = 45)), reLit "key"],
        reLit "apikey"], reWsStar,
      reColonEq, reWsStar, reQuote, reRepAtLeast 10 reNotQuote, reQuote],
    reSeq [reAlts [reLit "secret", reLit "token"], reWsStar,
      reColonEq, reWsStar, reQuote, reRepAtLeast 10 reNotQuote, reQuote],
    reSeq [reSeq [reLit "private", reOpt (RE.tok (fun c => c.toNat = 95 || c.toNat = 45)), reLit "key"], reWsStar,
      reColonEq, reWsStar, reQuote, reRepAtLeast 20 reNotQuote, reQuote] ]

def mkSecretIssue (file : CodeFile) (index : Nat) : Issue :=
  { id := "hardcoded-secret-" ++ natToString index
    type := .security
    severity := .critical
    title := "Hardcoded Secret Detected"
    description := "Sensitive information appears to be hardcoded in the source code."
    file := file.path
    line := some ((index : ℚ) + 1)
    suggestion := "Move secrets to environment variables or secure configuration files."
    impact := "Exposed credentials could lead to unauthorized access to systems and data."
    effort := .low }

def checkHardcodedSecrets (file : CodeFile) (lines : List String) : List Issue :=
  lines.enum.flatMap fun (index, line) =>
    (secretPatterns.filter (fun p => jsTestCI p line)).map fun _ => mkSecretIssue file index

/-- The three randomness patterns `/Math\.random$$$$/i`, `/Random$$$$/i`,
`/rand$$$$/i`: each is a literal followed by four `$` end anchors, so it
tests positive exactly when the (lowercased) line ends with the literal. -/
def randomTests : List (String → Bool) :=
  [ fun line => jsTestEndCI (reLit "math.random") line,
    fun line => jsTestEndCI (reLit "random") line,
    fun line => jsTestEndCI (reLit "rand") line ]

/-- `/(?:password|token|key|salt|nonce)/i` — a plain substring test. -/
def sensitiveCtx (line : String) : Bool :=
  jsIncludes (jsToLower line) "password" || jsIncludes (jsToLower line) "token" ||
  jsIncludes (jsToLower line) "key" || jsIncludes (jsToLower line) "salt" ||
  jsIncludes (jsToLower line) "nonce"

def mkRandomIssue (file : CodeFile) (index : Nat) : Issue :=
  { id := "insecure-random-" ++ natToString index
    type := .security
    severity := .medium
    title := "Insecure Random Number Generation"
    description := "Cryptographically weak random number generator used for security-sensitive operations."
    file := file.path
    line := some ((index : ℚ) + 1)
    suggestion := "Use cryptographically secure random number generators for security-sensitive operations."
    impact := "Predictable random values could be exploited by attackers."
    effort := .low }

def checkInsecureRandomness (file : CodeFile) (lines : List String) : List Issue :=
  lines.enum.flatMap fun (index, line) =>
    (randomTests.filter (fun t => t line && sensitiveCtx line)).map fun _ =>
      mkRandomIssue file index

/-- `/readFile\s*\(\s*.*\+/i`, `/writeFile\s*\(\s*.*\+/i`,
`/path\.join\s*\(\s*.*req\./i`, `/\.\.\//` -/
def pathPatterns : List RE :=
  [ reSeq [reLit "readfile", reWsStar, reC (Char.ofNat 40), reWsStar,
      reDotStar, reC (Char.ofNat 43)],
    reSeq [reLit "writefile", reWsStar, reC (Char.ofNat 40), reWsStar,
      reDotStar, reC (Char.ofNat 43)],
    reSeq [reLit "path.join", reWsStar, reC (Char.ofNat 40), reWsStar,
      reDotStar, reLit "req."],
    reLit "../" ]

def mkPathIssue (file : CodeFile) (index : Nat) : Issue :=
  { id := "path-traversal-" ++ natToString index
    type := .security
    severity := .high
    title := "Potential Path Traversal"
    description := "File path construction using user input without proper validation."
    file := file.path
    line := some ((index : ℚ) + 1)
    suggestion := "Validate and sanitize file paths, use allowlists for permitted directories."
    impact := "Attackers could access files outside the intended directory structure."
    effort := .medium }

def checkPathTraversal (file : CodeFile) (lines : List String) : List Issue :=
  lines.enum.flatMap fun (index, line) =>
    (pathPatterns.filter (fun p => jsTestCI p line)).map fun _ => mkPathIssue file index

/-- `/exec\s*\(\s*.*\+/i`, `/spawn\s*\(\s*.*\+/i`, `/system\s*\(\s*.*\+/i`,
`/shell_exec\s*\(/i` -/
def commandPatterns : List RE :=
  [ reSeq [reLit "exec", reWsStar, reC (Char.ofNat 40), reWsStar,
      reDotStar, reC (Char.ofNat 43)],
    reSeq [reLit "spawn", reWsStar, reC (Char.ofNat 40), reWsStar,
      reDotStar, reC (Char.ofNat 43)],
    reSeq [reLit "system", reWsStar, reC (Char.ofNat 40), reWsStar,
      reDotStar, reC (Char.ofNat 43)],
    reSeq [reLit "shell_exec", reWsStar, reC (Char.ofNat 40)] ]

def mkCommandIssue (file : CodeFile) (index : Nat) : Issue :=
  { id := "command-injection-" ++ natToString index
    type := .security
    severity := .critical
    title := "Potential Command Injection"
    description := "System command execution with user-controlled input detected."
    file := file.path
    line := some ((index : ℚ) + 1)
    suggestion := "Avoid executing system commands with user input. If necessary, use parameterized commands and input validation."
    impact := "Attackers could execute arbitrary system commands on the server."
    effort := .high }

def checkCommandInjection (file : CodeFile) (lines : List String) : List Issue :=
  lines.enum.flatMap fun (index, line) =>
    (commandPatterns.filter (fun p => jsTestCI p line)).map fun _ => mkCommandIssue file index

def analyzeFile (file : CodeFile) : List Issue :=
  let lines := jsSplit file.content (Char.ofNat 10)
  checkSqlInjection file lines ++ checkXss file lines ++
  checkHardcodedSecrets file lines ++ checkInsecureRandomness file lines ++
  checkPathTraversal file lines ++ checkCommandInjection file lines

end SecurityAnalyzer

/-! ## PerformanceAnalyzer (`src/analyzers/performance-analyzer.ts`) -/

namespace PerformanceAnalyzer

def mkNestedLoopIssue (file : CodeFile) (index nestedLevel : Nat) : Issue :=
  { id := "nested-loops-" ++ natToString index
    type := .performance
    severity := .medium
    title := "Deeply Nested Loops"
    description := "Found " ++ natToString nestedLevel ++
      " levels of nested loops, which can cause O(n^" ++ natToString nestedLevel ++
      ") complexity."
    file := file.path
    line := some ((index : ℚ) + 1)
    suggestion := "Consider optimizing with better algorithms, caching, or breaking down into smaller functions."
    impact := "Poor performance with large datasets, potential for exponential time complexity."
    effort := .high }

/-- `checkNestedLoops`: a fold over the lines carrying
`(issues, nestedLevel, loopStack)`.  The loop pattern is
`/\b(for|while|forEach|map|filter|reduce)\b/i`; a line whose trimmed text is
exactly `"}"` pops the stack. -/
def checkNestedLoops (file : CodeFile) (lines : List String) : List Issue :=
  (lines.enum.foldl
    (fun (st : List Issue × Nat × List Nat) (p : Nat × String) =>
      let (issues, nestedLevel, loopStack) := st
      let (index, line) := p
      let (issues, nestedLevel, loopStack) :=
        if testKwBoundedCI ["for", "while", "foreach", "map", "filter", "reduce"] line then
          let nestedLevel := nestedLevel + 1
          let loopStack := loopStack ++ [index]
          if nestedLevel ≥ 3 then
            (issues ++ [mkNestedLoopIssue file index nestedLevel], nestedLevel, loopStack)
          else (issues, nestedLevel, loopStack)
        else (issues, nestedLevel, loopStack)
      if jsTrim line = List.asString [rbraceC] && loopStack.length > 0 then
        (issues, nestedLevel - 1, loopStack.dropLast)
      else (issues, nestedLevel, loopStack))
    ([], 0, [])).1

/-- The four `inefficientPatterns` as boolean tests.  The second and third
literals (`/\.find$$$$\s*\.find\(/i`, `/\.filter$$$$\s*\.filter\(/i`) demand
further characters after a `$` end anchor and therefore can never match:
they are translated as `RE.emp`. -/
def inefficientTests : List (String → Bool) :=
  [ fun line => jsTestCI (reSeq [reLit "select", reWsPlus, reC (Char.ofNat 42),
      reWsPlus, reLit "from"]) line,
    fun line => jsTestCI RE.emp line,
    fun line => jsTestCI RE.emp line,
    fun line => jsTestCI (reSeq [reLit "for", reDotStar, reLit "in", reDotStar,
      reLit "for", reDotStar, reLit "in"]) line ]

def mkInefficientIssue (file : CodeFile) (index : Nat) : Issue :=
  { id := "inefficient-query-" ++ natToString index
    type := .performance
    severity := .medium
    title := "Inefficient Query Pattern"
    description := "Detected potentially inefficient data access pattern."
    file := file.path
    line := some ((index : ℚ) + 1)
    suggestion := "Optimize queries by selecting specific fields, using indexes, or combining operations."
    impact := "Slower query execution and increased resource usage."
    effort := .medium }

def checkInefficientQueries (file : CodeFile) (lines : List String) : List Issue :=
  lines.enum.flatMap fun (index, line) =>
    (inefficientTests.filter (fun t => t line)).map fun _ => mkInefficientIssue file index

/-- The `memoryLeakPatterns` table.  The third literal
(`/new\s+Array\s*$$\s*\d{6,}\s*$$/i`) requires digits after a `$` end anchor
and can never match (`RE.emp`). -/
def memoryLeakTests : List (String → Bool) :=
  [ fun line => jsTestCI (reSeq [reLit "setinterval", reWsStar, reC (Char.ofNat 40)]) line,
    fun line => jsTestCI (reSeq [reLit "addeventlistener", reWsStar, reC (Char.ofNat 40)]) line,
    fun line => jsTestCI RE.emp line,
    fun line => jsTestCI (reLit "global.") line ]

def mkMemoryLeakIssue (file : CodeFile) (index : Nat) (line : String) : Issue :=
  -- the case-sensitive override test /setInterval|addEventListener/
  let override := jsIncludes line "setInterval" || jsIncludes line "addEventListener"
  { id := "memory-leak-" ++ natToString index
    type := .performance
    severity := if override then .medium else .low
    title := if override then "Event Listener/Timer Not Cleaned Up" else "Potential Memory Leak"
    description := "Code pattern that could lead to memory leaks detected."
    file := file.path
    line := some ((index : ℚ) + 1)
    suggestion := if override then "Add corresponding clearInterval/removeEventListener calls."
      else "Ensure proper cleanup of resources."
    impact := "Gradual memory consumption increase, potential application crashes."
    effort := .low }

def checkMemoryLeaks (file : CodeFile) (lines : List String) : List Issue :=
  lines.enum.flatMap fun (index, line) =>
    (memoryLeakTests.filter (fun t => t line)).map fun _ => mkMemoryLeakIssue file index line

/-- `syncPatterns`; the last literal `/\.sync$$$$/i` is end anchored. -/
def syncTests : List (String → Bool) :=
  [ fun line => jsTestCI (reSeq [reLit "readfilesync", reWsStar, reC (Char.ofNat 40)]) line,
    fun line => jsTestCI (reSeq [reLit "writefilesync", reWsStar, reC (Char.ofNat 40)]) line,
    fun line => jsTestCI (reSeq [reLit "execsync", reWsStar, reC (Char.ofNat 40)]) line,
    fun line => jsTestEndCI (reLit ".sync") line ]

def mkSyncIssue (file : CodeFile) (index : Nat) : Issue :=
  { id := "sync-operation-" ++ natToString index
    type := .performance
    severity := .medium
    title := "Synchronous Operation"
    description := "Blocking synchronous operation detected that could freeze the application."
    file := file.path
    line := some ((index : ℚ) + 1)
    suggestion := "Replace with asynchronous alternatives using async/await or promises."
    impact := "Application blocking, poor user experience, reduced throughput."
    effort := .medium }

def checkSynchronousOperations (file : CodeFile) (lines : List String) : List Issue :=
  lines.enum.flatMap fun (index, line) =>
    (syncTests.filter (fun t => t line)).map fun _ => mkSyncIssue file index

/-- `/\[([^\]]{200,})\]/` and `/\{([^}]{200,})\}/` (both case sensitive). -/
def largeArrayPat : RE :=
  reSeq [reC (Char.ofNat 91), reRepAtLeast 200 (RE.tok (fun c => c.toNat ≠ 93)),
    reC (Char.ofNat 93)]

def largeObjectPat : RE :=
  reSeq [reC lbraceC, reRepAtLeast 200 (RE.tok (fun c => c ≠ rbraceC)), reC rbraceC]

def mkLargeDataIssue (file : CodeFile) (index : Nat) : Issue :=
  { id := "large-data-structure-" ++ natToString index
    type := .performance
    severity := .low
    title := "Large Data Structure"
    description := "Large inline data structure detected that could impact performance."
    file := file.path
    line := some ((index : ℚ) + 1)
    suggestion := "Consider loading data from external files or using lazy loading."
    impact := "Increased memory usage and slower initial load times."
    effort := .medium }

def checkLargeDataStructures (file : CodeFile) (lines : List String) : List Issue :=
  lines.enum.flatMap fun (index, line) =>
    if jsTest largeArrayPat line || jsTest largeObjectPat line then
      [mkLargeDataIssue file index]
    else []

def analyzeFile (file : CodeFile) : List Issue :=
  let lines := jsSplit file.content (Char.ofNat 10)
  checkNestedLoops file lines ++ checkInefficientQueries file lines ++
  checkMemoryLeaks file lines ++ checkSynchronousOperations file lines ++
  checkLargeDataStructures file lines

end PerformanceAnalyzer

/-! ## ComplexityAnalyzer (`src/analyzers/complexity-analyzer.ts`) -/

namespace ComplexityAnalyzer

/-- The in-flight function record of `checkFunctionLength`. -/
structure FnLenState where
  name : String
  startLine : Nat
  lineCount : Nat

/-- Count of a given character in a line (`(line.match(/\{/g) || []).length`). -/
def charCount (line : String) (c : Char) : Nat :=
  (line.data.filter (fun x => x = c)).length

def mkLongFunctionIssue (file : CodeFile) (f : FnLenState) : Issue :=
  { id := "long-function-" ++ natToString f.startLine
    type := .complexity
    severity := if f.lineCount > 100 then .high else .medium
    title := "Long Function"
    description := "Function '" ++ f.name ++ "' is " ++ natToString f.lineCount ++
      " lines long."
    file := file.path
    line := some ((f.startLine : ℚ) + 1)
    suggestion := "Break down large functions into smaller, more focused functions."
    impact := "Long functions are harder to understand, test, and maintain."
    effort := .medium }

/-- `checkFunctionLength`: brace-balance state machine delimiting functions,
opened by `line.match(/\b(?:function|def|class)\s+(\w+)/)` when no function
is currently open. -/
def checkFunctionLength (file : CodeFile) (lines : List String) : List Issue :=
  (lines.enum.foldl
    (fun (st : List Issue × Option FnLenState × ℤ) (p : Nat × String) =>
      let (issues, currentFunction, braceCount) := st
      let (index, line) := p
      let functionMatch := fnDeclMatch ["function", "def", "class"] line
      let (currentFunction, braceCount) : Option FnLenState × ℤ :=
        match functionMatch, currentFunction with
        | some name, none => (some { name := name, startLine := index, lineCount := 0 }, 0)
        | _, cf => (cf, braceCount)
      match currentFunction with
      | none => (issues, none, braceCount)
      | some f =>
          let f := { f with lineCount := f.lineCount + 1 }
          let braceCount := braceCount + charCount line lbraceC - charCount line rbraceC
          if braceCount ≤ 0 && f.lineCount > 1 then
            if f.lineCount > 50 then
              (issues ++ [mkLongFunctionIssue file f], none, braceCount)
            else (issues, none, braceCount)
          else (issues, some f, braceCount))
    ([], none, 0)).1

/-- The in-flight function record of `checkCyclomaticComplexity`. -/
structure FnCxState where
  name : String
  startLine : Nat
  complexity : Nat

/-- `/\b(if|else|while|for|switch|case|catch|&&|\|\||\?|try)\b/g` match
count. -/
def cxCount (line : String) : Nat :=
  countKwBounded ["if", "else", "while", "for", "switch", "case", "catch",
    "&&", "||", "?", "try"] line

def mkHighComplexityIssue (file : CodeFile) (f : FnCxState) : Issue :=
  { id := "high-complexity-" ++ natToString f.startLine
    type := .complexity
    severity := if f.complexity > 20 then .high else .medium
    title := "High Cyclomatic Complexity"
    description := "Function '" ++ f.name ++ "' has cyclomatic complexity of " ++
      natToString f.complexity ++ "."
    file := file.path
    line := some ((f.startLine : ℚ) + 1)
    suggestion := "Reduce complexity by extracting methods, using early returns, or simplifying conditional logic."
    impact := "High complexity makes code harder to understand and test."
    effort := .high }

def checkCyclomaticComplexity (file : CodeFile) (lines : List String) : List Issue :=
  (lines.enum.foldl
    (fun (st : List Issue × Option FnCxState × ℤ) (p : Nat × String) =>
      let (issues, currentFunction, braceCount) := st
      let (index, line) := p
      let functionMatch := fnDeclMatch ["function", "def", "class"] line
      let (currentFunction, braceCount) : Option FnCxState × ℤ :=
        match functionMatch, currentFunction with
        | some name, none => (some { name := name, startLine := index, complexity := 1 }, 0)
        | _, cf => (cf, braceCount)
      match currentFunction with
      | none => (issues, none, braceCount)
      | some f =>
          let f := { f with complexity := f.complexity + cxCount line }
          let braceCount := braceCount + charCount line lbraceC - charCount line rbraceC
          if braceCount ≤ 0 && f.complexity > 1 then
            if f.complexity > 10 then
              (issues ++ [mkHighComplexityIssue file f], none, braceCount)
            else (issues, none, braceCount)
          else (issues, some f, braceCount))
    ([], none, 0)).1

def mkDeepNestingIssue (file : CodeFile) (maxDepth deepestLine : Nat) : Issue :=
  { id := "deep-nesting-" ++ natToString deepestLine
    type := .complexity
    severity := if maxDepth > 6 then .high else .medium
    title := "Deep Nesting"
    description := "Maximum nesting depth of " ++ natToString maxDepth ++ " detected."
    file := file.path
    line := some ((deepestLine : ℚ) + 1)
    suggestion := "Reduce nesting by using early returns, extracting functions, or guard clauses."
    impact := "Deep nesting makes code harder to read and understand."
    effort := .medium }

/-- `checkNestingDepth`: `/\{|\bif\b|\bfor\b|\bwhile\b|\btry\b/` increments
the depth; a `}` anywhere in the line decrements it (floored at 0). -/
def checkNestingDepth (file : CodeFile) (lines : List String) : List Issue :=
  let st := lines.enum.foldl
    (fun (st : Nat × Nat × Nat) (p : Nat × String) =>
      let (maxDepth, currentDepth, deepestLine) := st
      let (index, line) := p
      let (maxDepth, currentDepth, deepestLine) :=
        if line.data.contains lbraceC ||
           testKwBounded ["if", "for", "while", "try"] line then
          let currentDepth := currentDepth + 1
          if currentDepth > maxDepth then (currentDepth, currentDepth, index)
          else (maxDepth, currentDepth, deepestLine)
        else (maxDepth, currentDepth, deepestLine)
      if line.data.contains rbraceC then (maxDepth, currentDepth - 1, deepestLine)
      else (maxDepth, currentDepth, deepestLine))
    (0, 0, 0)
  if st.1 > 4 then [mkDeepNestingIssue file st.1 st.2.2] else []

def mkManyParamsIssue (file : CodeFile) (index : Nat) (name : String)
    (paramCount : Nat) : Issue :=
  { id := "many-parameters-" ++ natToString index
    type := .complexity
    severity := if paramCount > 8 then .high else .medium
    title := "Too Many Parameters"
    description := "Function '" ++ name ++ "' has " ++ natToString paramCount ++
      " parameters."
    file := file.path
    line := some ((index : ℚ) + 1)
    suggestion := "Consider using an options object or breaking the function into smaller functions."
    impact := "Functions with many parameters are harder to use and maintain."
    effort := .medium }

/-- `checkParameterCount`: the source literal is
`/\b(?:function|def)\s+(\w+)\s*$$([^)]*)$$/` — the intended `\(`…`\)` around
the parameter list were mangled into `$$` end-anchor pairs, so the pattern
matches only when the line *ends* after the function name (and optional
whitespace), with `functionMatch[2]` the empty string.  The parameter list
`"".split(",")` is `[""]`, which filters to `[]`, so the `> 5` branch can
never fire; the computation is nevertheless translated in full. -/
def checkParameterCount (file : CodeFile) (lines : List String) : List Issue :=
  lines.enum.flatMap fun (index, line) =>
    match fnEndMatch ["function", "def"] line with
    | none => []
    | some name =>
        let params := (jsSplit "" (Char.ofNat 44)).filter
          (fun p => (jsTrim p).length > 0)
        if params.length > 5 then [mkManyParamsIssue file index name params.length]
        else []

def analyzeFile (file : CodeFile) : List Issue :=
  let lines := jsSplit file.content (Char.ofNat 10)
  checkFunctionLength file lines ++ checkCyclomaticComplexity file lines ++
  checkNestingDepth file lines ++ checkParameterCount file lines

end ComplexityAnalyzer

/-! ## A strict JSON parser (the behaviour of `JSON.parse`)

`AIQualityAnalyzer.parseAIResponse` feeds the bracketed substring of the
model's reply to `JSON.parse`.  The parser below implements the JSON
grammar (RFC 8259): arrays, objects, strings with escapes, numbers,
`true`/`false`/`null`; any malformed input yields `none` (the model of a
thrown `SyntaxError`).  Numbers are exact rationals.  Recursion is by an
explicit fuel which is always at least the remaining input length plus one,
and every recursive call consumes input, so the fuel never runs out for the
initial value chosen in `jsonParse`. -/

inductive JValue where
  | null : JValue
  | bool : Bool → JValue
  | num : ℚ → JValue
  | str : String → JValue
  | arr : List JValue → JValue
  | obj : List (String × JValue) → JValue

def jsonSkipWs (s : List Char) : List Char :=
  s.dropWhile (fun c => c.toNat = 32 || c.toNat = 9 || c.toNat = 10 || c.toNat = 13)

def isDigitC (c : Char) : Bool := 48 ≤ c.toNat && c.toNat ≤ 57

def digitsVal (l : List Char) : Nat :=
  l.foldl (fun a c => a * 10 + (c.toNat - 48)) 0

def hexVal (c : Char) : Option Nat :=
  if 48 ≤ c.toNat && c.toNat ≤ 57 then some (c.toNat - 48)
  else if 97 ≤ c.toNat && c.toNat ≤ 102 then some (c.toNat - 87)
  else if 65 ≤ c.toNat && c.toNat ≤ 70 then some (c.toNat - 55)
  else none

/-- The optional fraction part (`.` then at least one digit). -/
def parseFrac (s : List Char) : Option (ℚ × List Char) :=
  match s with
  | c :: cs =>
      if c.toNat = 46 then
        let fs := cs.takeWhile isDigitC
        if fs.length = 0 then none
        else some ((digitsVal fs : ℚ) / (10 : ℚ) ^ fs.length, cs.drop fs.length)
      else some (0, s)
  | [] => some (0, s)

/-- The optional exponent part (`e`/`E`, optional sign, at least one digit). -/
def parseExp (s : List Char) : Option (ℤ × List Char) :=
  match s with
  | c :: cs =>
      if c.toNat = 101 || c.toNat = 69 then
        let (sgn, cs2) : ℤ × List Char :=
          match cs with
          | c2 :: cs3 =>
              if c2.toNat = 43 then (1, cs3)
              else if c2.toNat = 45 then (-1, cs3)
              else (1, cs)
          | [] => (1, cs)
        let ds := cs2.takeWhile isDigitC
        if ds.length = 0 then none
        else some (sgn * (digitsVal ds : ℤ), cs2.drop ds.length)
      else some (0, s)
  | [] => some (0, s)

/-- A JSON number (with JSON's no-leading-zero rule). -/
def parseJNumber (s : List Char) : Option (ℚ × List Char) := do
  let (neg, s1) : Bool × List Char :=
    match s with
    | c :: cs => if c.toNat = 45 then (true, cs) else (false, s)
    | [] => (false, s)
  let ds := s1.takeWhile isDigitC
  if ds.length = 0 then none
  else if ds.length > 1 && ds.head? = some (Char.ofNat 48) then none
  else
    let (frac, rest2) ← parseFrac (s1.drop ds.length)
    let (ex, rest3) ← parseExp rest2
    let mag : ℚ := ((digitsVal ds : ℚ) + frac) * (10 : ℚ) ^ ex
    some ((if neg then -mag else mag), rest3)

mutual

def parseVal : Nat → List Char → Option (JValue × List Char)
  | 0, _ => none
  | fuel + 1, s =>
      match jsonSkipWs s with
      | [] => none
      | c :: cs =>
          if c.toNat = 91 then
            match jsonSkipWs cs with
            | c2 :: cs2 =>
                if c2.toNat = 93 then some (.arr [], cs2)
                else
                  match parseVal fuel (c2 :: cs2) with
                  | some (v, rest) => parseArrTail fuel rest [v]
                  | none => none
            | [] => none
          else if c = lbraceC then
            match jsonSkipWs cs with
            | c2 :: cs2 =>
                if c2 = rbraceC then some (.obj [], cs2)
                else parseObjField fuel (c2 :: cs2) []
            | [] => none
          else if c.toNat = 34 then
            match parseJString fuel cs [] with
            | some (str, rest) => some (.str str, rest)
            | none => none
          else if c.toNat = 116 then
            match stripKw "rue".data cs with
            | some r => some (.bool true, r)
            | none => none
          else if c.toNat = 102 then
            match stripKw "alse".data cs with
            | some r => some (.bool false, r)
            | none => none
          else if c.toNat = 110 then
            match stripKw "ull".data cs with
            | some r => some (.null, r)
            | none => none
          else
            match parseJNumber (c :: cs) with
            | some (q, rest) => some (.num q, rest)
            | none => none

/-- After the first element of an array: `, value`* then `]`.
`acc` holds the elements parsed so far, reversed. -/
def parseArrTail : Nat → List Char → List JValue → Option (JValue × List Char)
  | 0, _, _ => none
  | fuel + 1, s, acc =>
      match jsonSkipWs s with
      | c :: cs =>
          if c.toNat = 93 then some (.arr acc.reverse, cs)
          else if c.toNat = 44 then
            match parseVal fuel cs with
            | some (v, rest) => parseArrTail fuel rest (v :: acc)
            | none => none
          else none
      | [] => none

/-- One `"key" : value` object field followed by `,` (next field) or `}`. -/
def parseObjField : Nat → List Char → List (String × JValue) →
    Option (JValue × List Char)
  | 0, _, _ => none
  | fuel + 1, s, acc =>
      match jsonSkipWs s with
      | c :: cs =>
          if c.toNat = 34 then
            match parseJString fuel cs [] with
            | some (key, rest) =>
                match jsonSkipWs rest with
                | c2 :: cs2 =>
                    if c2.toNat = 58 then
                      match parseVal fuel cs2 with
                      | some (v, rest2) =>
                          match jsonSkipWs rest2 with
                          | c3 :: cs3 =>
                              if c3 = rbraceC then
                                some (.obj ((key, v) :: acc).reverse, cs3)
                              else if c3.toNat = 44 then
                                parseObjField fuel cs3 ((key, v) :: acc)
                              else none
                          | [] => none
                      | none => none
                    else none
                | [] => none
            | none => none
          else none
      | [] => none

/-- The body of a JSON string after the opening quote; `acc` is reversed. -/
def parseJString : Nat → List Char → List Char → Option (String × List Char)
  | 0, _, _ => none
  | fuel + 1, s, acc =>
      match s with
      | [] => none
      | c :: cs =>
          if c.toNat = 34 then some (acc.reverse.asString, cs)
          else if c.toNat = 92 then
            match cs with
            | e :: cs2 =>
                if e.toNat = 34 then parseJString fuel cs2 (Char.ofNat 34 :: acc)
                else if e.toNat = 92 then parseJString fuel cs2 (Char.ofNat 92 :: acc)
                else if e.toNat = 47 then parseJString fuel cs2 (Char.ofNat 47 :: acc)
                else if e.toNat = 98 then parseJString fuel cs2 (Char.ofNat 8 :: acc)
                else if e.toNat = 102 then parseJString fuel cs2 (Char.ofNat 12 :: acc)
                else if e.toNat = 110 then parseJString fuel cs2 (Char.ofNat 10 :: acc)
                else if e.toNat = 114 then parseJString fuel cs2 (Char.ofNat 13 :: acc)
                else if e.toNat = 116 then parseJString fuel cs2 (Char.ofNat 9 :: acc)
                else if e.toNat = 117 then
                  match cs2 with
                  | h1 :: h2 :: h3 :: h4 :: cs3 =>
                      match hexVal h1, hexVal h2, hexVal h3, hexVal h4 with
                      | some a, some b, some c4, some d =>
                          parseJString fuel cs3
                            (Char.ofNat (((a * 16 + b) * 16 + c4) * 16 + d) :: acc)
                      | _, _, _, _ => none
                  | _ => none
                else none
            | [] => none
          else if c.toNat < 32 then none
          else parseJString fuel cs (c :: acc)

end

/-- `JSON.parse`: parse one value and require only whitespace after it. -/
def jsonParse (str : String) : Option JValue :=
  match parseVal (str.data.length + 1) str.data with
  | some (v, rest) => if jsonSkipWs rest = [] then some v else none
  | none => none

def JValue.isNull : JValue → Bool
  | .null => true
  | _ => false

/-- Property lookup on a parsed JSON object: with duplicate keys the later
entry wins, as in `JSON.parse`. -/
def jGet (fields : List (String × JValue)) (key : String) : Option JValue :=
  (fields.reverse.find? (fun kv => kv.1 = key)).map (fun kv => kv.2)

/-! ## Environment, `GeminiClient` and config (`src/config.ts`,
`src/ai/gemini-client.ts`)

The process environment's `GEMINI_API_KEY` is an `Option String`.
`getGeminiApiKey` throws when the variable is absent *or* empty
(`if (!apiKey)`). -/

def getGeminiApiKey (env : Option String) : Except String String :=
  match env with
  | some apiKey =>
      if apiKey = "" then .error "GEMINI_API_KEY environment variable is required"
      else .ok apiKey
  | none => .error "GEMINI_API_KEY environment variable is required"

structure GeminiClient where
  apiKey : String
deriving DecidableEq, Repr

/-- `new GeminiClient()`: propagates the `getGeminiApiKey` failure. -/
def GeminiClient.mk' (env : Option String) : Except String GeminiClient :=
  (getGeminiApiKey env).map (fun k => { apiKey := k })

/-- `GeminiClient.analyzeCode`: one call of the external transport
(`gen` is the opaque `GenerateText` oracle); a transport failure is
re-thrown with the `Failed to analyze code:` prefix. -/
def GeminiClient.analyzeCode (gen : String → Except String String)
    (prompt : String) : Except String String :=
  match gen prompt with
  | .ok s => .ok s
  | .error e => .error ("Failed to analyze code: " ++ e)

/-- The prompt template of `GeminiClient.askQuestion`. -/
def geminiQaPrompt (context question : String) : String :=
  "\nContext: You are analyzing a codebase. Here's the relevant information:\n"
  ++ context ++ "\n\nQuestion: " ++ question ++
  "\n\nPlease provide a clear, helpful answer based on the code context provided.\n"

def GeminiClient.askQuestion (gen : String → Except String String)
    (context question : String) : Except String String :=
  GeminiClient.analyzeCode gen (geminiQaPrompt context question)

/-! ## AIQualityAnalyzer (`src/analyzers/ai-quality-analyzer.ts`) -/

namespace AIQualityAnalyzer

/-- The analyzer's only state: the lazily-constructed client, `null` when
the constructor's `new GeminiClient()` threw (no API key). -/
structure Analyzer where
  geminiClient : Option GeminiClient
deriving DecidableEq, Repr

/-- The constructor: catch the missing-credential error and store `null`. -/
def mkAnalyzer (env : Option String) : Analyzer :=
  { geminiClient := (GeminiClient.mk' env).toOption }

/-- `response.match(/\[[\s\S]*\]/)`: the greedy bracketed substring — from
the first `[` through the last `]`, provided a `]` occurs after the first
`[`. -/
def extractJsonArray (response : String) : Option String :=
  let cs := response.data
  match cs.findIdx? (fun c => c.toNat = 91),
        (cs.reverse.findIdx? (fun c => c.toNat = 93)).map
          (fun k => cs.length - 1 - k) with
  | some i, some j =>
      if i < j then some (((cs.drop i).take (j - i + 1)).asString) else none
  | _, _ => none

/-- A string-typed field of a parsed issue object under JavaScript
truthiness: present, a string, and non-empty — otherwise the default.
(Fields of other runtime types would escape the `QualityIssue` declaration
of `types.ts` and are not representable in the typed model.) -/
def jStrField (fields : List (String × JValue)) (key : String) : Option String :=
  match jGet fields key with
  | some (.str s) => if s = "" then none else some s
  | _ => none

/-- `issue.line || undefined`: a truthy (non-zero) numeric field. -/
def jNumField (fields : List (String × JValue)) (key : String) : Option ℚ :=
  match jGet fields key with
  | some (.num q) => if q ≠ 0 then some q else none
  | _ => none

/-- One element of the parsed array turned into an issue record, with the
documented defaults for missing (or falsy) fields.  A non-object element has
no properties, so every field defaults. -/
def issueOfJson (now : Nat) (files : List CodeFile) (index : Nat)
    (v : JValue) : Issue :=
  let fields := match v with | .obj fs => fs | _ => []
  { id := "ai-" ++ natToString now ++ "-" ++ natToString index
    type := ((jStrField fields "type").bind typeFromString).getD .maintainability
    severity := ((jStrField fields "severity").bind sevFromString).getD .medium
    title := (jStrField fields "title").getD "Code Quality Issue"
    description := (jStrField fields "description").getD "Issue detected by AI analysis"
    -- `issue.file || files[0]?.path || "unknown"`: the second `||` is also
    -- JavaScript truthiness, so an *empty* first-file path falls through to
    -- "unknown" just like a missing first file.
    file := (jStrField fields "file").getD
      (match files.head? with
       | some f0 => if f0.path = "" then "unknown" else f0.path
       | none => "unknown")
    line := jNumField fields "line"
    suggestion := (jStrField fields "suggestion").getD "Review and improve this code"
    impact := (jStrField fields "impact").getD "May affect code quality"
    effort := ((jStrField fields "effort").bind effortFromString).getD .medium }

/-- `parseAIResponse(response, files)` at time `now = Date.now()`:
locate the bracketed array, `JSON.parse` it, map the elements to issues;
*any* failure — no bracketed substring, a parse error, or a `null` element
(property access on `null` throws) — yields `[]`. -/
def parseAIResponse (now : Nat) (response : String) (files : List CodeFile) :
    List Issue :=
  match extractJsonArray response with
  | none => []
  | some s =>
      match jsonParse s with
      | some (.arr elems) =>
          if elems.any JValue.isNull then []
          else elems.enum.map (fun (i, v) => issueOfJson now files i v)
      | _ => []

/-- `createAnalysisPrompt`: per-file sections (content truncated to 2000
characters, with a marker when cut) inside the fixed reviewer template. -/
def createAnalysisPrompt (files : List CodeFile) : String :=
  let fileContents := String.intercalate "\n" (files.map (fun file =>
    "\nFile: " ++ file.path ++ " (" ++ file.language ++ ")\n```" ++
    file.language ++ "\n" ++ jsSlice0 file.content 2000 ++ " " ++
    (if file.content.length > 2000 then "..." else "") ++ "\n```\n"))
  "\nYou are a senior code reviewer analyzing the following code files for quality issues. \n\nPlease identify issues in these categories:\n1. Security vulnerabilities\n2. Performance problems  \n3. Code duplication\n4. Complexity issues\n5. Testing gaps\n6. Documentation problems\n7. Maintainability concerns\n\nFor each issue found, provide:\n- Type (security/performance/duplication/complexity/testing/documentation/maintainability)\n- Severity (low/medium/high/critical)\n- Title (brief description)\n- Description (detailed explanation)\n- File and line number (if applicable)\n- Suggestion (how to fix)\n- Impact (why it matters)\n- Effort (low/medium/high to fix)\n\nFormat your response as JSON array of issues:\n[\n  \x7b\n    \"type\": \"security\",\n    \"severity\": \"high\",\n    \"title\": \"Issue title\",\n    \"description\": \"Detailed description\",\n    \"file\": \"path/to/file.js\",\n    \"line\": 42,\n    \"suggestion\": \"How to fix this\",\n    \"impact\": \"Why this matters\",\n    \"effort\": \"medium\"\n  \x7d\n]\n\nFiles to analyze:\n"
  ++ fileContents ++
  "\n\nFocus on real, actionable issues that would help developers improve their code quality.\n"

/-- `analyzeBatch`: no client → `[]`; transport failure → `[]`; otherwise
parse the reply (at the `Date.now()` value `now`). -/
def analyzeBatch (gen : String → Except String String) (now : Nat)
    (client : Option GeminiClient) (files : List CodeFile) : List Issue :=
  let prompt := createAnalysisPrompt files
  match client with
  | none => []
  | some _ =>
      match GeminiClient.analyzeCode gen prompt with
      | .ok response => parseAIResponse now response files
      | .error _ => []

/-- `analyzeCodeQuality`: fixed-size batches of 3 files, in order; the `k`-th
batch call observes `Date.now() = times k`. -/
def analyzeCodeQuality (gen : String → Except String String) (times : Nat → Nat)
    (client : Option GeminiClient) : Nat → List CodeFile → List Issue
  | _, [] => []
  | k, [f1] => analyzeBatch gen (times k) client [f1]
  | k, [f1, f2] => analyzeBatch gen (times k) client [f1, f2]
  | k, f1 :: f2 :: f3 :: fs =>
      analyzeBatch gen (times k) client [f1, f2, f3] ++
      analyzeCodeQuality gen times client (k + 1) fs

/-- `analyzeTestCoverage`'s test-file predicate. -/
def isTestFile (f : CodeFile) : Bool :=
  jsIncludes f.path "test" || jsIncludes f.path "spec" ||
  jsEndsWith f.path ".test.js" || jsEndsWith f.path ".test.ts" ||
  jsEndsWith f.path ".spec.js" || jsEndsWith f.path ".spec.ts"

def noTestsIssue : Issue :=
  { id := "no-tests"
    type := .testing
    severity := .high
    title := "No Test Files Found"
    description := "No test files detected in the codebase."
    file := "project"
    line := none
    suggestion := "Add unit tests for your functions and components."
    impact := "Lack of tests makes it difficult to catch bugs and refactor safely."
    effort := .high }

def lowCoverageIssue (testRatio : ℚ) : Issue :=
  { id := "low-test-coverage"
    type := .testing
    severity := .medium
    title := "Low Test Coverage"
    description := "Only " ++ intToString (jsRound (testRatio * 100)) ++
      "% of source files have corresponding tests."
    file := "project"
    line := none
    suggestion := "Increase test coverage by adding tests for untested modules."
    impact := "Insufficient testing increases the risk of bugs in production."
    effort := .high }

/-- `analyzeTestCoverage`: no test files → one high-severity issue; else a
medium issue when the test/source ratio is below 0.3.  (When every file is a
test file the JavaScript ratio is `Infinity`, which is not `< 0.3`.) -/
def analyzeTestCoverage (files : List CodeFile) : List Issue :=
  let testFiles := files.filter isTestFile
  let sourceFiles := files.filter (fun f => !isTestFile f)
  if testFiles.length = 0 then [noTestsIssue]
  else if sourceFiles.length = 0 then []
  else
    let testRatio : ℚ := (testFiles.length : ℚ) / (sourceFiles.length : ℚ)
    if testRatio < 3 / 10 then [lowCoverageIssue testRatio] else []

def noReadmeIssue : Issue :=
  { id := "no-readme"
    type := .documentation
    severity := .medium
    title := "Missing README"
    description := "No README file found in the project."
    file := "project"
    line := none
    suggestion := "Add a README.md file with project description, setup instructions, and usage examples."
    impact := "Makes it difficult for new developers to understand and contribute to the project."
    effort := .low }

def mkUndocumentedIssue (file : CodeFile) (count firstLine : Nat) : Issue :=
  { id := "undocumented-functions-" ++ file.path
    type := .documentation
    severity := .low
    title := "Undocumented Functions"
    description := natToString count ++ " functions lack documentation in " ++
      file.path ++ "."
    file := file.path
    line := some ((firstLine : ℚ) + 1)
    suggestion := "Add JSDoc comments or docstrings to explain function purpose, parameters, and return values."
    impact := "Makes code harder to understand and maintain."
    effort := .low }

/-- The declaration-line predicate `/\b(function|def|class)\s+\w+/`
(case sensitive) and the doc-marker check over the three preceding lines. -/
def undocumentedFunctionLines (lines : List String) : List Nat :=
  let functionLines := (lines.enum.filter
    (fun (p : Nat × String) =>
      (fnDeclMatch ["function", "def", "class"] p.2).isSome)).map Prod.fst
  functionLines.filter (fun lineNum =>
    let prevLines := (lines.drop (lineNum - 3)).take (lineNum - (lineNum - 3))
    !(prevLines.any (fun line =>
        jsIncludes line "/**" || jsIncludes line "\"\"\"" || jsIncludes line "///")))

/-- `analyzeDocumentation`. -/
def analyzeDocumentation (files : List CodeFile) : List Issue :=
  let readmeIssues :=
    if files.any (fun f => jsIncludes (jsToLower f.path) "readme") then []
    else [noReadmeIssue]
  readmeIssues ++ files.flatMap (fun file =>
    let lines := jsSplit file.content (Char.ofNat 10)
    let undocumented := undocumentedFunctionLines lines
    match undocumented.head? with
    | some firstLine => [mkUndocumentedIssue file undocumented.length firstLine]
    | none => [])

end AIQualityAnalyzer

/-! ## QualityEngine (`src/core/quality-engine.ts`) -/

namespace QualityEngine

/-- `FileAnalyzer.getTotalLines`. -/
def getTotalLines (files : List CodeFile) : Nat :=
  files.foldl (fun total file => total + (jsSplit file.content (Char.ofNat 10)).length) 0

/-- `Object.keys(this.fileAnalyzer.getLanguageStats(files))`: the languages
in first-occurrence (insertion) order. -/
def languagesOf (files : List CodeFile) : List String :=
  files.foldl (fun acc f => if acc.contains f.language then acc else acc ++ [f.language]) []

/-- `breakdown[issue.severity]++`. -/
def bumpSeverity (bd : Breakdown) (issue : Issue) : Breakdown :=
  match issue.severity with
  | .low => { bd with low := bd.low + 1 }
  | .medium => { bd with medium := bd.medium + 1 }
  | .high => { bd with high := bd.high + 1 }
  | .critical => { bd with critical := bd.critical + 1 }

/-- `getSeverityBreakdown`: the four buckets start at 0, and
`breakdown[issue.severity]++` for each issue. -/
def getSeverityBreakdown (issues : List Issue) : Breakdown :=
  issues.foldl bumpSeverity { low := 0, medium := 0, high := 0, critical := 0 }

/-- The sum of the values of a severity breakdown. -/
def bdSum (bd : Breakdown) : Nat := bd.low + bd.medium + bd.high + bd.critical

/-- `calculateMetrics` (the computed `securityIssues` of the source is dead
and omitted): clamp in `ℚ`, then `Math.round`. -/
def calculateMetrics (files : List CodeFile) (issues : List Issue) : Metrics :=
  let complexityIssues := issues.filter (fun i => decide (i.type = IssueType.complexity))
  let testIssues := issues.filter (fun i => decide (i.type = IssueType.testing))
  let codeComplexity : ℚ :=
    min 10 (((complexityIssues.length : ℚ) / (files.length : ℚ)) * 10)
  let testCoverage : ℚ := max 0 (100 - (testIssues.length : ℚ) * 20)
  let duplicationPercentage : ℚ :=
    min 50 (((issues.filter (fun i => decide (i.type = IssueType.duplication))).length : ℚ) * 5)
  let maintainabilityIndex : ℚ :=
    max 0 (100 - ((issues.length : ℚ) / (files.length : ℚ)) * 10)
  { codeComplexity := jsRound codeComplexity
    testCoverage := jsRound testCoverage
    duplicationPercentage := jsRound duplicationPercentage
    maintainabilityIndex := jsRound maintainabilityIndex }

/-- `severityOrder = { critical: 4, high: 3, medium: 2, low: 1 }`. -/
def sevOrder : Severity → ℤ
  | .critical => 4 | .high => 3 | .medium => 2 | .low => 1

/-- `typePriority = { security: 4, performance: 3, complexity: 2, testing: 1 }`
with `|| 0` for every other type. -/
def typePriority : IssueType → ℤ
  | .security => 4 | .performance => 3 | .complexity => 2 | .testing => 1
  | _ => 0

/-- The comparator passed to `issues.sort`. -/
def jsCmp (a b : Issue) : ℤ :=
  let severityDiff := sevOrder b.severity - sevOrder a.severity
  if severityDiff ≠ 0 then severityDiff
  else typePriority b.type - typePriority a.type

/-- "`a` may come before `b`" under the comparator (`jsCmp a b ≤ 0`).
`Array.prototype.sort` is required to be stable by the ECMAScript
specification (ES2019), so `prioritizeIssues` is the stable sort by this
relation. -/
abbrev rIssue (a b : Issue) : Prop := jsCmp a b ≤ 0

/-- `prioritizeIssues`: the stable sort of the issues by descending severity
rank, then descending type priority. -/
def prioritizeIssues (issues : List Issue) : List Issue :=
  issues.insertionSort rIssue

/-- The two-component sort key (severity rank, type priority). -/
def issueKey (i : Issue) : ℤ × ℤ := (sevOrder i.severity, typePriority i.type)

/-- `generateRecommendations`: one fixed message per non-empty category, in
the fixed source order, or the single positive message. -/
def generateRecommendations (issues : List Issue) : List String :=
  let hasType (t : IssueType) : Bool := issues.any (fun i => decide (i.type = t))
  let recommendations :=
    (if hasType .security then
      ["🔒 Address security vulnerabilities immediately - they pose the highest risk"]
     else []) ++
    (if hasType .performance then
      ["⚡ Optimize performance bottlenecks to improve user experience"]
     else []) ++
    (if hasType .testing then
      ["🧪 Increase test coverage to catch bugs early and enable safe refactoring"]
     else []) ++
    (if hasType .complexity then
      ["🔧 Refactor complex code to improve maintainability"]
     else []) ++
    (if hasType .documentation then
      ["📚 Improve documentation to help team members understand the codebase"]
     else [])
  if recommendations.length = 0 then
    ["✅ Great job! Your code quality looks good overall"]
  else recommendations

/-- The merged issue stream of `analyzeFiles`, in arrival order: the three
static analyzers per file, then the AI batches, then the test-coverage
heuristic, then the documentation heuristic. -/
def engineAllIssues (gen : String → Except String String) (times : Nat → Nat)
    (env : Option String) (files : List CodeFile) : List Issue :=
  (files.flatMap (fun file =>
    SecurityAnalyzer.analyzeFile file ++ PerformanceAnalyzer.analyzeFile file ++
    ComplexityAnalyzer.analyzeFile file)) ++
  AIQualityAnalyzer.analyzeCodeQuality gen times
    (AIQualityAnalyzer.mkAnalyzer env).geminiClient 0 files ++
  AIQualityAnalyzer.analyzeTestCoverage files ++
  AIQualityAnalyzer.analyzeDocumentation files

/-- `QualityEngine.analyzeFiles`: refuse an empty file list, otherwise
assemble the report.  `nowIso` is `new Date().toISOString()`. -/
def analyzeFiles (gen : String → Except String String) (times : Nat → Nat)
    (nowIso : String) (env : Option String) (files : List CodeFile) :
    Except String Report :=
  if files.length = 0 then .error "No supported code files provided"
  else
    let allIssues := engineAllIssues gen times env files
    .ok
      { summary :=
          { totalFiles := files.length
            totalLines := getTotalLines files
            languages := languagesOf files
            issueCount := allIssues.length
            severityBreakdown := getSeverityBreakdown allIssues }
        issues := prioritizeIssues allIssues
        metrics := calculateMetrics files allIssues
        recommendations := generateRecommendations allIssues
        timestamp := nowIso }

end QualityEngine

/-! ## QASession (`src/interactive/qa-session.ts`) -/

namespace QASession

/-- A session: the (failing-constructor) client plus the `QAContext` —
report, files, and the conversation history. -/
structure Session where
  geminiClient : GeminiClient
  report : Report
  files : List CodeFile
  conversationHistory : List (String × String)
deriving DecidableEq, Repr

/-- The constructor: `new GeminiClient()` (which throws without a
credential), then an empty history. -/
def mkSession (env : Option String) (report : Report) (files : List CodeFile) :
    Except String Session :=
  (GeminiClient.mk' env).map (fun client =>
    { geminiClient := client, report := report, files := files,
      conversationHistory := [] })

/-- `groupFilesByLanguage`, flattened to the `Object.entries` iteration
order: languages in first occurrence order, each with its files in arrival
order. -/
def groupFilesByLanguage (files : List CodeFile) : List (String × List CodeFile) :=
  (QualityEngine.languagesOf files).map (fun lang =>
    (lang, files.filter (fun f => decide (f.language = lang))))

/-- `issue.line ? `:${issue.line}` : ""` — `0` is falsy. -/
def lineSuffix (line : Option ℚ) : String :=
  match line with
  | some q => if q ≠ 0 then ":" ++ ratToString q else ""
  | none => ""

/-- `buildContextualPrompt` (its `question` parameter is unused in the
source, and omitted here): the bounded context document. -/
def buildContextualPrompt (s : Session) : String :=
  let report := s.report
  let bd := report.summary.severityBreakdown
  let context : List String :=
    ["=== CODE ANALYSIS REPORT ===",
     "Files analyzed: " ++ natToString report.summary.totalFiles,
     "Total lines: " ++ natToString report.summary.totalLines,
     "Languages: " ++ String.intercalate ", " report.summary.languages,
     "Issues found: " ++ natToString report.summary.issueCount,
     "",
     "Issue Severity Breakdown:",
     "- low: " ++ natToString bd.low,
     "- medium: " ++ natToString bd.medium,
     "- high: " ++ natToString bd.high,
     "- critical: " ++ natToString bd.critical,
     "",
     "Quality Metrics:",
     "- Code Complexity: " ++ intToString report.metrics.codeComplexity ++ "/10",
     "- Test Coverage: " ++ intToString report.metrics.testCoverage ++ "%",
     "- Code Duplication: " ++ intToString report.metrics.duplicationPercentage ++ "%",
     "- Maintainability Index: " ++ intToString report.metrics.maintainabilityIndex ++ "/100",
     "",
     "Top Priority Issues:"] ++
    ((report.issues.take 10).enum.flatMap (fun (p : Nat × Issue) =>
      let (index, issue) := p
      [natToString (index + 1) ++ ". [" ++ jsToUpper (sevToString issue.severity) ++
         "] " ++ issue.title,
       "   File: " ++ issue.file ++ lineSuffix issue.line,
       "   Type: " ++ typeToString issue.type,
       "   Description: " ++ issue.description,
       "   Suggestion: " ++ issue.suggestion,
       ""])) ++
    ["File Structure:"] ++
    ((groupFilesByLanguage s.files).flatMap (fun (p : String × List CodeFile) =>
      let (language, langFiles) := p
      [language ++ ": " ++ natToString langFiles.length ++ " files"] ++
      (langFiles.take 5).map (fun file => "  - " ++ file.path) ++
      (if langFiles.length > 5 then
        ["  ... and " ++ natToString (langFiles.length - 5) ++ " more"]
       else []))) ++
    [""] ++
    (if s.conversationHistory.length > 0 then
      ["Previous Conversation:"] ++
      (jsTakeLast s.conversationHistory 3).flatMap (fun (p : String × String) =>
        let (question, answer) := p
        ["Q: " ++ question,
         "A: " ++ jsSlice0 answer 200 ++ (if answer.length > 200 then "..." else ""),
         ""])
     else [])
  String.intercalate "\n" context

/-- The fixed apologetic fallback of `askQuestion`. -/
def apologyMessage : String :=
  "I'm sorry, I encountered an error while processing your question. Please try again."

/-- `askQuestion`: build the contextual prompt, call the model through the
client wrapper; on success append `{question, answer}` to the history and
return the answer, on any failure return the fixed apology and leave the
session unchanged. -/
def askQuestion (gen : String → Except String String) (s : Session)
    (question : String) : String × Session :=
  let contextualPrompt := buildContextualPrompt s
  match GeminiClient.askQuestion gen contextualPrompt question with
  | .ok answer =>
      (answer,
       { s with conversationHistory := s.conversationHistory ++ [(question, answer)] })
  | .error _ => (apologyMessage, s)

end QASession

/-! ## Specification-side definitions

These definitions are written from the *specification's* wording (not from
the source); the refinement theorems below compare them with the embedded
code. -/

/-- The derived-metric formulas exactly as documented in §4.4 of the spec:
`codeComplexity = min(10, round(10·c/n))`, `testCoverage =
max(0, round(100 − 20·t))`, `duplicationPercentage = min(50, round(5·d))`,
`maintainabilityIndex = max(0, round(100 − 10·I/n))`. -/
def metricsSpec (files : List CodeFile) (issues : List Issue) : Metrics :=
  let n : ℚ := (files.length : ℚ)
  let c : ℚ := ((issues.filter (fun i => decide (i.type = IssueType.complexity))).length : ℚ)
  let t : ℚ := ((issues.filter (fun i => decide (i.type = IssueType.testing))).length : ℚ)
  let d : ℚ := ((issues.filter (fun i => decide (i.type = IssueType.duplication))).length : ℚ)
  let total : ℚ := (issues.length : ℚ)
  { codeComplexity := min 10 (jsRound (10 * c / n))
    testCoverage := max 0 (jsRound (100 - 20 * t))
    duplicationPercentage := min 50 (jsRound (5 * d))
    maintainabilityIndex := max 0 (jsRound (100 - 10 * total / n)) }

/-! ## Concrete fixtures for witnesses and counterexamples -/

/-- A transport oracle that always fails (e.g. network error). -/
def genFail : String → Except String String := fun _ => .error "network error"

/-- A transport oracle that always returns the same reply. -/
def genConst (reply : String) : String → Except String String := fun _ => .ok reply

/-- A constant `Date.now()` clock. -/
def times0 : Nat → Nat := fun _ => 0

/-- A fixed ISO timestamp for fixture runs. -/
def iso0 : String := "2024-01-01T00:00:00.000Z"

/-- The single JavaScript source unit of the spec's SQL-injection
end-to-end scenario: its content is exactly the line
`query("SELECT * FROM users WHERE id=" + id)`. -/
def c4File : CodeFile :=
  { path := "app.js", content := "query(\"SELECT * FROM users WHERE id=\" + id)",
    language := "javascript", size := 44 }

/-- A fallback report (used only to destructure `Except` fixtures). -/
def fallbackReport : Report :=
  { summary :=
      { totalFiles := 0
        totalLines := 0
        languages := []
        issueCount := 0
        severityBreakdown := ⟨0, 0, 0, 0⟩ }
    issues := []
    metrics := ⟨0, 0, 0, 0⟩
    recommendations := []
    timestamp := "" }

/-- The report the pipeline produces for `c4File` (no credential, so the
model pass contributes nothing). -/
def c4Report : Report :=
  (QualityEngine.analyzeFiles genFail times0 iso0 none [c4File]).toOption.getD
    fallbackReport

/-- A source unit on which the SQL-injection rule does fire: the
concatenation precedes `FROM`. -/
def c4bFile : CodeFile :=
  { path := "app.js",
    content := "db.query(\"SELECT \" + cols + \" FROM users WHERE id=1\")",
    language := "javascript", size := 54 }

def c4bReport : Report :=
  (QualityEngine.analyzeFiles genFail times0 iso0 none [c4bFile]).toOption.getD
    fallbackReport

/-- A source unit whose single line matches two SQL patterns at once
(`execute(…)` with a `+` inside the quotes, and `SELECT … + … FROM`),
so the security analyzer emits two issues with the same id. -/
def c5File : CodeFile :=
  { path := "db.js", content := "execute(\"SELECT a + b FROM t\")",
    language := "javascript", size := 30 }

def c5Report : Report :=
  (QualityEngine.analyzeFiles genFail times0 iso0 none [c5File]).toOption.getD
    fallbackReport

/-- A small session fixture over the `c4bReport`. -/
def fixtureSession : QASession.Session :=
  { geminiClient := { apiKey := "k" }, report := c4bReport, files := [c4bFile],
    conversationHistory := [] }

/-! # Lemmas and theorems -/

/-! ## `Math.round` arithmetic -/

theorem jsRound_intCast (n : ℤ) : jsRound (n : ℚ) = n := by
  unfold jsRound
  rw [Int.floor_eq_iff]
  constructor
  · linarith
  · linarith

theorem jsRound_mono {p q : ℚ} (h : p ≤ q) : jsRound p ≤ jsRound q := by
  unfold jsRound
  exact Int.floor_le_floor (by linarith)

theorem jsRound_min_int (m : ℤ) (q : ℚ) :
    jsRound (min (m : ℚ) q) = min m (jsRound q) := by
  rcases le_total q (m : ℚ) with h | h
  · rw [min_eq_right h, min_eq_right]
    calc jsRound q ≤ jsRound (m : ℚ) := jsRound_mono h
    _ = m := jsRound_intCast m
  · rw [min_eq_left h, jsRound_intCast, min_eq_left]
    calc (m : ℤ) = jsRound (m : ℚ) := (jsRound_intCast m).symm
    _ ≤ jsRound q := jsRound_mono h

theorem jsRound_max_int (m : ℤ) (q : ℚ) :
    jsRound (max (m : ℚ) q) = max m (jsRound q) := by
  rcases le_total q (m : ℚ) with h | h
  · rw [max_eq_left h, jsRound_intCast, max_eq_left]
    calc jsRound q ≤ jsRound (m : ℚ) := jsRound_mono h
    _ = m := jsRound_intCast m
  · rw [max_eq_right h, max_eq_right]
    calc (m : ℤ) = jsRound (m : ℚ) := (jsRound_intCast m).symm
    _ ≤ jsRound q := jsRound_mono h

/-! ## Severity breakdown counting -/

theorem bdSum_bumpSeverity (bd : Breakdown) (i : Issue) :
    QualityEngine.bdSum (QualityEngine.bumpSeverity bd i) =
      QualityEngine.bdSum bd + 1 := by
  cases h : i.severity <;>
    simp [QualityEngine.bumpSeverity, QualityEngine.bdSum, h] <;> omega

theorem bdSum_foldl (l : List Issue) (bd : Breakdown) :
    QualityEngine.bdSum (l.foldl QualityEngine.bumpSeverity bd) =
      QualityEngine.bdSum bd + l.length := by
  induction l generalizing bd with
  | nil => simp
  | cons i l ih =>
      simp only [List.foldl_cons, ih, bdSum_bumpSeverity, List.length_cons]
      omega

theorem bdSum_getSeverityBreakdown (issues : List Issue) :
    QualityEngine.bdSum (QualityEngine.getSeverityBreakdown issues) = issues.length := by
  unfold QualityEngine.getSeverityBreakdown
  rw [bdSum_foldl]
  simp [QualityEngine.bdSum]

/-! ## The prioritisation order -/

namespace QualityEngine

theorem jsCmp_le_iff (a b : Issue) :
    jsCmp a b ≤ 0 ↔
      (sevOrder b.severity < sevOrder a.severity ∨
       (sevOrder b.severity = sevOrder a.severity ∧
        typePriority b.type ≤ typePriority a.type)) := by
  simp only [jsCmp]
  split_ifs with h
  · constructor
    · intro hle; left; omega
    · intro hc
      rcases hc with hlt | ⟨heq, _⟩
      · omega
      · omega
  · constructor
    · intro hle; right; constructor
      · omega
      · omega
    · intro _; omega

theorem rIssue_total (a b : Issue) : rIssue a b ∨ rIssue b a := by
  simp only [rIssue, jsCmp_le_iff]
  omega

theorem rIssue_trans {a b c : Issue} (h₁ : rIssue a b) (h₂ : rIssue b c) :
    rIssue a c := by
  simp only [rIssue, jsCmp_le_iff] at h₁ h₂ ⊢
  omega

theorem issueKey_ne_of_not_rIssue {a b : Issue} (h : ¬rIssue a b) :
    issueKey a ≠ issueKey b := by
  simp only [rIssue, jsCmp_le_iff] at h
  push_neg at h
  simp only [issueKey, ne_eq, Prod.mk.injEq, not_and]
  intro hsev
  omega

theorem sorted_prioritizeIssues (issues : List Issue) :
    List.Sorted rIssue (prioritizeIssues issues) :=
  haveI : IsTotal Issue rIssue := ⟨rIssue_total⟩
  haveI : IsTrans Issue rIssue := ⟨fun _ _ _ => rIssue_trans⟩
  List.sorted_insertionSort rIssue issues

theorem perm_prioritizeIssues (issues : List Issue) :
    List.Perm (prioritizeIssues issues) issues :=
  List.perm_insertionSort rIssue issues

theorem length_prioritizeIssues (issues : List Issue) :
    (prioritizeIssues issues).length = issues.length :=
  List.length_insertionSort rIssue issues

/-- Stability of a single ordered insertion with respect to the sort key:
the inserted element lands directly in front of the elements with its own
key, and the key classes of the other elements are untouched. -/
theorem filter_orderedInsert (k : ℤ × ℤ) (a : Issue) (l : List Issue) :
    (List.orderedInsert rIssue a l).filter (fun z => decide (issueKey z = k)) =
      if issueKey a = k then
        a :: l.filter (fun z => decide (issueKey z = k))
      else l.filter (fun z => decide (issueKey z = k)) := by
  induction l with
  | nil =>
      simp only [List.orderedInsert, List.filter]
      split_ifs with h <;> simp [h]
  | cons b l ih =>
      simp only [List.orderedInsert]
      by_cases hr : rIssue a b
      · rw [if_pos hr]
        by_cases ha : issueKey a = k <;> simp [List.filter_cons, ha]
      · rw [if_neg hr]
        have hne := issueKey_ne_of_not_rIssue hr
        by_cases ha : issueKey a = k
        · have hb : issueKey b ≠ k := fun hb => hne (ha.trans hb.symm)
          simp [List.filter_cons, hb, ih, ha]
        · by_cases hb : issueKey b = k <;> simp [List.filter_cons, hb, ih, ha]

/-- Stability of `prioritizeIssues`: for every value of the sort key, the
subsequence of issues with that key is exactly the arrival-order
subsequence. -/
theorem filter_prioritizeIssues (k : ℤ × ℤ) (issues : List Issue) :
    (prioritizeIssues issues).filter (fun z => decide (issueKey z = k)) =
      issues.filter (fun z => decide (issueKey z = k)) := by
  induction issues with
  | nil => rfl
  | cons a l ih =>
      simp only [prioritizeIssues, List.insertionSort] at ih ⊢
      rw [filter_orderedInsert]
      by_cases ha : issueKey a = k <;> simp [List.filter_cons, ha, ih]

/-- Destructuring a successful `analyzeFiles` run. -/
theorem analyzeFiles_ok {gen : String → Except String String} {times : Nat → Nat}
    {nowIso : String} {env : Option String} {files : List CodeFile} {r : Report}
    (h : analyzeFiles gen times nowIso env files = .ok r) :
    r.issues = prioritizeIssues (engineAllIssues gen times env files) ∧
    r.summary.issueCount = (engineAllIssues gen times env files).length ∧
    r.summary.severityBreakdown =
      getSeverityBreakdown (engineAllIssues gen times env files) ∧
    r.metrics = calculateMetrics files (engineAllIssues gen times env files) := by
  unfold analyzeFiles at h
  by_cases hf : files.length = 0
  · rw [if_pos hf] at h
    exact absurd h (by simp)
  · rw [if_neg hf] at h
    injection h with h
    subst h
    exact ⟨rfl, rfl, rfl, rfl⟩

end QualityEngine

theorem jsRound_zero : jsRound (0 : ℚ) = 0 := by
  have := jsRound_intCast 0
  norm_num at this
  exact this

theorem jsRound_nonneg {q : ℚ} (h : 0 ≤ q) : 0 ≤ jsRound q := by
  have := jsRound_mono h
  rwa [jsRound_zero] at this

theorem jsRound_le_of_le {q : ℚ} {m : ℤ} (h : q ≤ (m : ℚ)) : jsRound q ≤ m := by
  have := jsRound_mono h
  rwa [jsRound_intCast] at this

theorem jsRound_min10 (q : ℚ) : jsRound (min 10 q) = min 10 (jsRound q) := by
  have h := jsRound_min_int 10 q
  norm_num at h
  exact h

theorem jsRound_min50 (q : ℚ) : jsRound (min 50 q) = min 50 (jsRound q) := by
  have h := jsRound_min_int 50 q
  norm_num at h
  exact h

theorem jsRound_max0 (q : ℚ) : jsRound (max 0 q) = max 0 (jsRound q) := by
  have h := jsRound_max_int 0 q
  norm_num at h
  exact h

/-! ## Claim C1 -/

/-- **C1.** Every Report produced by `QualityEngine.analyzeFiles` (whose
`issues` is `prioritizeIssues` of the merged stream) is sorted by the
comparator relation `rIssue` — severity rank descending
(critical=4 > high=3 > medium=2 > low=1) and, on severity ties, type
priority descending (security=4 > performance=3 > complexity=2 > testing=1,
all other types 0); see `QualityEngine.jsCmp_le_iff` for the unfolded
reading — and the sort is stable: for every sort key `k`, the issues whose
key is `k` appear in exactly their arrival order in the merged stream
(`engineAllIssues`), of which the report's sequence is a permutation. -/
theorem report_issues_sorted_and_stable
    (gen : String → Except String String) (times : Nat → Nat) (nowIso : String)
    (env : Option String) (files : List CodeFile) (r : Report) (k : ℤ × ℤ)
    (h : QualityEngine.analyzeFiles gen times nowIso env files = .ok r) :
    List.Sorted QualityEngine.rIssue r.issues ∧
    List.Perm r.issues (QualityEngine.engineAllIssues gen times env files) ∧
    r.issues.filter (fun z => decide (QualityEngine.issueKey z = k)) =
      (QualityEngine.engineAllIssues gen times env files).filter
        (fun z => decide (QualityEngine.issueKey z = k)) := by
  obtain ⟨hi, -, -, -⟩ := QualityEngine.analyzeFiles_ok h
  rw [hi]
  exact ⟨QualityEngine.sorted_prioritizeIssues _,
    QualityEngine.perm_prioritizeIssues _,
    QualityEngine.filter_prioritizeIssues k _⟩

/-- Witness for C1: the pipeline run on the `c5File` fixture. -/
theorem report_issues_sorted_and_stable_witness :
    List.Sorted QualityEngine.rIssue c5Report.issues ∧
    List.Perm c5Report.issues (QualityEngine.engineAllIssues genFail times0 none [c5File]) ∧
    c5Report.issues.filter (fun z => decide (QualityEngine.issueKey z = (4, 4))) =
      (QualityEngine.engineAllIssues genFail times0 none [c5File]).filter
        (fun z => decide (QualityEngine.issueKey z = (4, 4))) :=
  report_issues_sorted_and_stable genFail times0 iso0 none [c5File] c5Report (4, 4)
    (by rfl)

/-! ## Claim C2 -/

/-- **C2.** In every Report produced by `analyzeFiles`, the severity
breakdown's values sum to `issueCount`, which equals the length of the
`issues` sequence. -/
theorem severity_breakdown_sums_to_issue_count
    (gen : String → Except String String) (times : Nat → Nat) (nowIso : String)
    (env : Option String) (files : List CodeFile) (r : Report)
    (h : QualityEngine.analyzeFiles gen times nowIso env files = .ok r) :
    QualityEngine.bdSum r.summary.severityBreakdown = r.summary.issueCount ∧
    r.summary.issueCount = r.issues.length := by
  obtain ⟨hi, hc, hb, -⟩ := QualityEngine.analyzeFiles_ok h
  rw [hi, hc, hb, bdSum_getSeverityBreakdown,
    QualityEngine.length_prioritizeIssues]
  exact ⟨rfl, rfl⟩

/-- Witness for C2: the pipeline run on the `c4File` fixture. -/
theorem severity_breakdown_sums_to_issue_count_witness :
    QualityEngine.bdSum c4Report.summary.severityBreakdown =
      c4Report.summary.issueCount ∧
    c4Report.summary.issueCount = c4Report.issues.length :=
  severity_breakdown_sums_to_issue_count genFail times0 iso0 none [c4File]
    c4Report (by rfl)

/-! ## Claim C3 -/

/-- **C3.** `analyzeFiles` on an empty file list fails with the input error
`"No supported code files provided"` (never an `ok` Report). -/
theorem analyzeFiles_empty_input_error
    (gen : String → Except String String) (times : Nat → Nat) (nowIso : String)
    (env : Option String) :
    QualityEngine.analyzeFiles gen times nowIso env [] =
      .error "No supported code files provided" := rfl

/-! ## Claim C8 -/

/-- **C8.** For a non-empty file list, the four derived metrics of
`calculateMetrics` equal the documented formulas (`metricsSpec`, e.g.
`codeComplexity = min(10, round(10·c/n))`) and lie within their documented
clamps: `0 ≤ codeComplexity ≤ 10`, `0 ≤ testCoverage ≤ 100`,
`0 ≤ duplicationPercentage ≤ 50`, `0 ≤ maintainabilityIndex ≤ 100`, for
every issue list. -/
theorem metrics_match_spec_and_clamped (files : List CodeFile)
    (issues : List Issue) (_hne : files ≠ []) :
    QualityEngine.calculateMetrics files issues = metricsSpec files issues ∧
    0 ≤ (QualityEngine.calculateMetrics files issues).codeComplexity ∧
    (QualityEngine.calculateMetrics files issues).codeComplexity ≤ 10 ∧
    0 ≤ (QualityEngine.calculateMetrics files issues).testCoverage ∧
    (QualityEngine.calculateMetrics files issues).testCoverage ≤ 100 ∧
    0 ≤ (QualityEngine.calculateMetrics files issues).duplicationPercentage ∧
    (QualityEngine.calculateMetrics files issues).duplicationPercentage ≤ 50 ∧
    0 ≤ (QualityEngine.calculateMetrics files issues).maintainabilityIndex ∧
    (QualityEngine.calculateMetrics files issues).maintainabilityIndex ≤ 100 := by
  have n0 : (0 : ℚ) ≤ (files.length : ℚ) := by positivity
  have c0 : (0 : ℚ) ≤
      ((issues.filter (fun i => decide (i.type = IssueType.complexity))).length : ℚ) := by
    positivity
  have t0 : (0 : ℚ) ≤
      ((issues.filter (fun i => decide (i.type = IssueType.testing))).length : ℚ) := by
    positivity
  have d0 : (0 : ℚ) ≤
      ((issues.filter (fun i => decide (i.type = IssueType.duplication))).length : ℚ) := by
    positivity
  have i0 : (0 : ℚ) ≤ (issues.length : ℚ) := by positivity
  have heq : QualityEngine.calculateMetrics files issues = metricsSpec files issues := by
    unfold QualityEngine.calculateMetrics metricsSpec
    simp only [Metrics.mk.injEq]
    refine ⟨?_, ?_, ?_, ?_⟩
    · rw [show ((issues.filter (fun i => decide (i.type = IssueType.complexity))).length : ℚ) /
          (files.length : ℚ) * 10 =
          10 * ((issues.filter (fun i => decide (i.type = IssueType.complexity))).length : ℚ) /
          (files.length : ℚ) from by ring]
      exact jsRound_min10 _
    · rw [show (100 : ℚ) -
          ((issues.filter (fun i => decide (i.type = IssueType.testing))).length : ℚ) * 20 =
          100 - 20 * ((issues.filter (fun i => decide (i.type = IssueType.testing))).length : ℚ)
          from by ring]
      exact jsRound_max0 _
    · rw [show ((issues.filter (fun i => decide (i.type = IssueType.duplication))).length : ℚ) * 5 =
          5 * ((issues.filter (fun i => decide (i.type = IssueType.duplication))).length : ℚ)
          from by ring]
      exact jsRound_min50 _
    · rw [show (100 : ℚ) - ((issues.length : ℚ) / (files.length : ℚ)) * 10 =
          100 - 10 * (issues.length : ℚ) / (files.length : ℚ) from by ring]
      exact jsRound_max0 _
  refine ⟨heq, ?_, ?_, ?_, ?_, ?_, ?_, ?_, ?_⟩ <;> rw [heq] <;>
    unfold metricsSpec <;> simp only []
  · exact le_min (by norm_num) (jsRound_nonneg (by positivity))
  · exact min_le_left _ _
  · exact le_max_left _ _
  · refine max_le (by norm_num) (jsRound_le_of_le ?_)
    push_cast
    linarith
  · exact le_min (by norm_num) (jsRound_nonneg (by positivity))
  · exact min_le_left _ _
  · exact le_max_left _ _
  · refine max_le (by norm_num) (jsRound_le_of_le ?_)
    have : (0 : ℚ) ≤ 10 * (issues.length : ℚ) / (files.length : ℚ) := by positivity
    push_cast
    linarith

/-! ## Claim C4 -/

/-- **C4 counterexample.** On the spec's end-to-end scenario input — a
JavaScript unit whose content is exactly the line
`query("SELECT * FROM users WHERE id=" + id)` — the security analyzer
produces *no* issue at all (none of its patterns matches: in the SQL rule
`/SELECT\s+.*\+.*FROM/i` the `+` must occur *before* `FROM`, and the
`query(…)` rule requires a `${…}` interpolation inside the quotes), and the
full pipeline's Report for that unit contains no security issue either —
contradicting the claimed security/critical SQL-injection finding. -/
theorem sql_scenario_line_not_detected :
    SecurityAnalyzer.analyzeFile c4File = [] ∧
    c4Report.issues.filter (fun i => decide (i.type = IssueType.security)) = [] := by
  exact ⟨by rfl, by rfl⟩

/-- **C4 amended.** On a line where the string concatenation precedes
`FROM` — here `db.query("SELECT " + cols + " FROM users WHERE id=1")` — the
analyzer emits exactly one issue: the SQL-injection rule's
security/critical finding, with the file equal to the unit's path and the
line equal to the 1-based line number of the literal; the issue also
reaches the pipeline's Report. -/
theorem sql_rule_fires_on_concatenation_before_from :
    SecurityAnalyzer.analyzeFile c4bFile = [SecurityAnalyzer.mkSqlIssue c4bFile 0] ∧
    (SecurityAnalyzer.mkSqlIssue c4bFile 0).type = IssueType.security ∧
    (SecurityAnalyzer.mkSqlIssue c4bFile 0).severity = Severity.critical ∧
    (SecurityAnalyzer.mkSqlIssue c4bFile 0).title = "Potential SQL Injection" ∧
    (SecurityAnalyzer.mkSqlIssue c4bFile 0).file = c4bFile.path ∧
    (SecurityAnalyzer.mkSqlIssue c4bFile 0).line = some 1 ∧
    c4bReport.issues.head? = some (SecurityAnalyzer.mkSqlIssue c4bFile 0) := by
  refine ⟨by rfl, rfl, rfl, rfl, rfl, ?_, by rfl⟩
  show some ((0 : ℚ) + 1) = some 1
  norm_num

/-! ## Claim C5 -/

/-- **C5 counterexample.** In the Report produced for `c5File` — a single
file whose one line `execute("SELECT a + b FROM t")` matches two of the SQL
patterns at once — the issue ids are *not* unique: both resulting issues
carry the id `sql-injection-0` (detector ids are built from the rule name
and the line index only). -/
theorem report_issue_ids_not_unique :
    ¬(c5Report.issues.map Issue.id).Nodup ∧
    (c5Report.issues.filter (fun i => decide (i.id = "sql-injection-0"))).length = 2 := by
  exact ⟨by decide, by decide⟩

theorem stringDataInj {s t : String} (h : s.data = t.data) : s = t := by
  cases s
  cases t
  exact congrArg String.mk h

theorem digitChar_inj_lt {a b : ℕ} (ha : a < 10) (hb : b < 10)
    (h : Nat.digitChar a = Nat.digitChar b) : a = b := by
  interval_cases a <;> interval_cases b <;> revert h <;> decide

theorem map_digitChar_inj : ∀ l₁ l₂ : List ℕ, (∀ x ∈ l₁, x < 10) →
    (∀ x ∈ l₂, x < 10) → l₁.map Nat.digitChar = l₂.map Nat.digitChar → l₁ = l₂ := by
  intro l₁
  induction l₁ with
  | nil => intro l₂ _ _ h; cases l₂ <;> simp_all
  | cons a t ih =>
      intro l₂ h₁ h₂ h
      cases l₂ with
      | nil => simp at h
      | cons b t₂ =>
          simp only [List.map_cons, List.cons.injEq] at h
          have hab : a = b :=
            digitChar_inj_lt (h₁ a (by simp)) (h₂ b (by simp)) h.1
          have ht : t = t₂ :=
            ih t₂ (fun x hx => h₁ x (by simp [hx])) (fun x hx => h₂ x (by simp [hx])) h.2
          rw [hab, ht]

/-- The fuel-based digit extraction agrees with `Nat.digits` once the fuel
covers the number. -/
theorem natDigitsAux_eq : ∀ fuel n : ℕ, n ≤ fuel →
    natDigitsAux fuel n = (Nat.digits 10 n).map Nat.digitChar := by
  intro fuel
  induction fuel with
  | zero =>
      intro n hn
      have : n = 0 := Nat.le_zero.mp hn
      subst this
      simp [natDigitsAux]
  | succ fuel ih =>
      intro n hn
      by_cases h0 : n = 0
      · subst h0
        simp [natDigitsAux]
      · have hpos : 0 < n := Nat.pos_of_ne_zero h0
        have hdiv : n / 10 ≤ fuel := by
          have := Nat.div_lt_self hpos (by norm_num : 1 < 10)
          omega
        simp only [natDigitsAux, if_neg h0]
        rw [ih (n / 10) hdiv, Nat.digits_of_two_le_of_pos (by norm_num) hpos,
          List.map_cons]

/-- The rendering of a nonzero number, in terms of `Nat.digits`. -/
theorem natToString_of_ne_zero {n : ℕ} (hn : n ≠ 0) :
    natToString n = ((Nat.digits 10 n).map Nat.digitChar).reverse.asString := by
  unfold natToString
  rw [if_neg hn, natDigitsAux_eq n n le_rfl]

/-- Two numbers with the same digit rendering are equal. -/
theorem digits_render_inj {x y : ℕ}
    (h : (Nat.digits 10 x).map Nat.digitChar = (Nat.digits 10 y).map Nat.digitChar) :
    x = y := by
  have hd := map_digitChar_inj _ _
    (fun d hd => Nat.digits_lt_base (by norm_num) hd)
    (fun d hd => Nat.digits_lt_base (by norm_num) hd) h
  calc x = Nat.ofDigits 10 (Nat.digits 10 x) := (Nat.ofDigits_digits 10 x).symm
  _ = Nat.ofDigits 10 (Nat.digits 10 y) := by rw [hd]
  _ = y := Nat.ofDigits_digits 10 y

/-- A nonzero number never renders as `"0"`. -/
theorem natToString_ne_zero_str {x : ℕ} (hx : x ≠ 0) : natToString x ≠ "0" := by
  intro hcontra
  rw [natToString_of_ne_zero hx] at hcontra
  have hlists : ((Nat.digits 10 x).map Nat.digitChar).reverse =
      (Char.ofNat 48) :: [] := congrArg String.data hcontra
  have hmap : (Nat.digits 10 x).map Nat.digitChar = [Char.ofNat 48] := by
    have := congrArg List.reverse hlists
    simpa using this
  have hdig : Nat.digits 10 x = [0] :=
    map_digitChar_inj (Nat.digits 10 x) [0]
      (fun d hd => Nat.digits_lt_base (by norm_num) hd)
      (by intro d hd; simp at hd; omega)
      (by rw [hmap]; decide)
  have : x = 0 := by
    calc x = Nat.ofDigits 10 (Nat.digits 10 x) := (Nat.ofDigits_digits 10 x).symm
    _ = Nat.ofDigits 10 [0] := by rw [hdig]
    _ = 0 := by simp [Nat.ofDigits]
  exact hx this

/-- The decimal rendering of a natural number is injective. -/
theorem natToString_injective : Function.Injective natToString := by
  intro m n h
  by_cases hm : m = 0 <;> by_cases hn : n = 0
  · rw [hm, hn]
  · exact absurd (by rw [← h, hm]; rfl : natToString n = "0")
      (natToString_ne_zero_str hn)
  · exact absurd (by rw [h, hn]; rfl : natToString m = "0")
      (natToString_ne_zero_str hm)
  · refine digits_render_inj (List.reverse_injective ?_)
    have h1 := natToString_of_ne_zero hm
    have h2 := natToString_of_ne_zero hn
    rw [h1, h2] at h
    exact congrArg String.data h

/-- The model-extractor id scheme `ai-<now>-<index>` is injective in the
index. -/
theorem aiIdInj {now i j : ℕ}
    (h : "ai-" ++ natToString now ++ "-" ++ natToString i =
         "ai-" ++ natToString now ++ "-" ++ natToString j) : i = j := by
  apply natToString_injective
  apply stringDataInj
  have hd := congrArg String.data h
  simp only [String.data_append, List.append_assoc] at hd
  exact List.append_cancel_left (List.append_cancel_left (List.append_cancel_left hd))

/-- **C5 amended.** The Report-wide id uniqueness fails (see the
counterexample: detector ids repeat), but the part of the claim about the
model extractor holds: within a single `parseAIResponse` call, the
generated ids `ai-<timestamp>-<index>` are pairwise distinct. -/
theorem ai_extractor_ids_unique_per_call (now : Nat) (response : String)
    (files : List CodeFile) :
    List.Pairwise (fun a b => a.id ≠ b.id)
      (AIQualityAnalyzer.parseAIResponse now response files) := by
  unfold AIQualityAnalyzer.parseAIResponse
  cases hx : AIQualityAnalyzer.extractJsonArray response with
  | none => exact List.Pairwise.nil
  | some s =>
      dsimp only
      cases hj : jsonParse s with
      | none => exact List.Pairwise.nil
      | some v =>
          cases v with
          | arr elems =>
              dsimp only
              cases hnull : elems.any JValue.isNull with
              | true => simp
              | false =>
                  simp only [Bool.false_eq_true, if_false]
                  rw [List.pairwise_map]
                  have hfst : List.Pairwise (fun p q : ℕ × JValue => p.1 < q.1)
                      elems.enum := by
                    have h1 : List.Pairwise (· < ·) (elems.enum.map Prod.fst) := by
                      rw [List.enum_map_fst]
                      exact List.sorted_lt_range elems.length
                    exact List.pairwise_map.mp h1
                  refine hfst.imp ?_
                  intro p q hlt hcontra
                  have hpq : p.1 = q.1 := aiIdInj hcontra
                  omega
          | null => exact List.Pairwise.nil
          | bool b => exact List.Pairwise.nil
          | num q => exact List.Pairwise.nil
          | str t => exact List.Pairwise.nil
          | obj fs => exact List.Pairwise.nil

/-! ## Claim C6 -/

/-- **C6.** The model extractor's defensive parse: a raw response with no
bracketed array substring yields the empty issue sequence, and so does a
response whose located bracketed substring fails `JSON.parse` — in either
case `parseAIResponse` returns `[]` (it is a total function, so no
exception can escape into the pipeline). -/
theorem parse_failure_yields_empty (now : Nat) (response : String)
    (files : List CodeFile) (s : String) :
    (AIQualityAnalyzer.extractJsonArray response = none →
      AIQualityAnalyzer.parseAIResponse now response files = []) ∧
    (AIQualityAnalyzer.extractJsonArray response = some s → jsonParse s = none →
      AIQualityAnalyzer.parseAIResponse now response files = []) := by
  constructor
  · intro h
    unfold AIQualityAnalyzer.parseAIResponse
    rw [h]
  · intro h1 h2
    unfold AIQualityAnalyzer.parseAIResponse
    rw [h1]
    try dsimp only
    rw [h2]

/-- Witness for C6: a response with no bracketed array, and a response whose
bracketed substring is malformed JSON. -/
theorem parse_failure_yields_empty_witness :
    AIQualityAnalyzer.parseAIResponse 7 "the model refuses to answer" [] = [] ∧
    AIQualityAnalyzer.extractJsonArray "bad [ json \x7d]" = some "[ json \x7d]" ∧
    jsonParse "[ json \x7d]" = none ∧
    AIQualityAnalyzer.parseAIResponse 7 "bad [ json \x7d]" [] = [] :=
  ⟨(parse_failure_yields_empty 7 "the model refuses to answer" [] "").1 (by rfl),
   by rfl, by rfl,
   (parse_failure_yields_empty 7 "bad [ json \x7d]" [] "[ json \x7d]").2
     (by rfl) (by rfl)⟩

/-! ## Claim C7 -/

/-- **C7.** When the located bracketed substring parses to a JSON array
(with no `null` elements), `parseAIResponse` maps its elements to issues in
order, and an element that is an object *missing* the optional fields
receives exactly the documented defaults: `type` becomes `maintainability`,
`severity` becomes `medium`, `file` becomes the path of the first file of
the batch (provided that path is non-empty — an empty path is falsy in
JavaScript and falls through to `"unknown"`), `suggestion` and `impact`
become the fixed generic texts, and `effort` becomes `medium`. -/
theorem parse_missing_fields_defaults (now : Nat) (files : List CodeFile)
    (response s : String) (elems : List JValue) (i : Nat)
    (fields : List (String × JValue)) (f0 : CodeFile)
    (h1 : AIQualityAnalyzer.extractJsonArray response = some s)
    (h2 : jsonParse s = some (JValue.arr elems))
    (h3 : elems.any JValue.isNull = false)
    (h4 : elems[i]? = some (JValue.obj fields))
    (h5 : jGet fields "type" = none) (h6 : jGet fields "severity" = none)
    (h7 : jGet fields "file" = none) (h8 : jGet fields "suggestion" = none)
    (h9 : jGet fields "impact" = none) (h10 : jGet fields "effort" = none)
    (hf : files.head? = some f0) (hp : f0.path ≠ "") :
    (AIQualityAnalyzer.parseAIResponse now response files)[i]? =
      some (AIQualityAnalyzer.issueOfJson now files i (JValue.obj fields)) ∧
    (AIQualityAnalyzer.issueOfJson now files i (JValue.obj fields)).type =
      IssueType.maintainability ∧
    (AIQualityAnalyzer.issueOfJson now files i (JValue.obj fields)).severity =
      Severity.medium ∧
    (AIQualityAnalyzer.issueOfJson now files i (JValue.obj fields)).file = f0.path ∧
    (AIQualityAnalyzer.issueOfJson now files i (JValue.obj fields)).suggestion =
      "Review and improve this code" ∧
    (AIQualityAnalyzer.issueOfJson now files i (JValue.obj fields)).impact =
      "May affect code quality" ∧
    (AIQualityAnalyzer.issueOfJson now files i (JValue.obj fields)).effort =
      Effort.medium := by
  refine ⟨?_, ?_, ?_, ?_, ?_, ?_, ?_⟩
  · unfold AIQualityAnalyzer.parseAIResponse
    rw [h1]
    try dsimp only
    rw [h2]
    try dsimp only
    rw [h3]
    rw [if_neg (by simp)]
    rw [List.getElem?_map]
    rw [show elems.enum = List.enumFrom 0 elems from rfl, List.getElem?_enumFrom, h4]
    simp
  · simp [AIQualityAnalyzer.issueOfJson, AIQualityAnalyzer.jStrField, h5]
  · simp [AIQualityAnalyzer.issueOfJson, AIQualityAnalyzer.jStrField, h6]
  · simp [AIQualityAnalyzer.issueOfJson, AIQualityAnalyzer.jStrField, h7, hf, hp]
  · simp [AIQualityAnalyzer.issueOfJson, AIQualityAnalyzer.jStrField, h8]
  · simp [AIQualityAnalyzer.issueOfJson, AIQualityAnalyzer.jStrField, h9]
  · simp [AIQualityAnalyzer.issueOfJson, AIQualityAnalyzer.jStrField, h10]

/-- Witness for C7: a reply whose array has one object carrying only a
title. -/
theorem parse_missing_fields_defaults_witness :
    (AIQualityAnalyzer.parseAIResponse 9
        "Sure! [\x7b\"title\":\"Deep module\"\x7d]" [c4File])[0]? =
      some (AIQualityAnalyzer.issueOfJson 9 [c4File] 0
        (JValue.obj [("title", JValue.str "Deep module")])) ∧
    (AIQualityAnalyzer.issueOfJson 9 [c4File] 0
        (JValue.obj [("title", JValue.str "Deep module")])).type =
      IssueType.maintainability ∧
    (AIQualityAnalyzer.issueOfJson 9 [c4File] 0
        (JValue.obj [("title", JValue.str "Deep module")])).severity =
      Severity.medium ∧
    (AIQualityAnalyzer.issueOfJson 9 [c4File] 0
        (JValue.obj [("title", JValue.str "Deep module")])).file = c4File.path ∧
    (AIQualityAnalyzer.issueOfJson 9 [c4File] 0
        (JValue.obj [("title", JValue.str "Deep module")])).suggestion =
      "Review and improve this code" ∧
    (AIQualityAnalyzer.issueOfJson 9 [c4File] 0
        (JValue.obj [("title", JValue.str "Deep module")])).impact =
      "May affect code quality" ∧
    (AIQualityAnalyzer.issueOfJson 9 [c4File] 0
        (JValue.obj [("title", JValue.str "Deep module")])).effort =
      Effort.medium :=
  parse_missing_fields_defaults 9 [c4File]
    "Sure! [\x7b\"title\":\"Deep module\"\x7d]" "[\x7b\"title\":\"Deep module\"\x7d]"
    [JValue.obj [("title", JValue.str "Deep module")]] 0
    [("title", JValue.str "Deep module")] c4File
    (by rfl) (by rfl) (by rfl) (by rfl) (by rfl) (by rfl) (by rfl) (by rfl)
    (by rfl) (by rfl) (by rfl) (by decide)

/-! ## Claim C9 -/

/-- **C9.** `QASession.askQuestion`: if the external call fails, the fixed
apologetic message is returned and the session (in particular its
conversation history) is unchanged; on success the answer is returned and
exactly the one `{question, answer}` entry is appended to the history. -/
theorem ask_question_error_handling (gen : String → Except String String)
    (s : QASession.Session) (question e a : String) :
    (gen (geminiQaPrompt (QASession.buildContextualPrompt s) question) = .error e →
      QASession.askQuestion gen s question = (QASession.apologyMessage, s)) ∧
    (gen (geminiQaPrompt (QASession.buildContextualPrompt s) question) = .ok a →
      QASession.askQuestion gen s question =
        (a, { s with conversationHistory :=
                s.conversationHistory ++ [(question, a)] })) := by
  constructor
  · intro h
    unfold QASession.askQuestion GeminiClient.askQuestion GeminiClient.analyzeCode
    dsimp only
    rw [h]
  · intro h
    unfold QASession.askQuestion GeminiClient.askQuestion GeminiClient.analyzeCode
    dsimp only
    rw [h]

/-- Witness for C9: a failing transport leaves the fixture session
untouched; a successful transport appends exactly one history entry. -/
theorem ask_question_error_handling_witness :
    QASession.askQuestion genFail fixtureSession "What should I fix first?" =
      (QASession.apologyMessage, fixtureSession) ∧
    QASession.askQuestion (genConst "Fix the SQL injection.") fixtureSession
        "What should I fix first?" =
      ("Fix the SQL injection.",
       { fixtureSession with conversationHistory :=
           [("What should I fix first?", "Fix the SQL injection.")] }) :=
  ⟨(ask_question_error_handling genFail fixtureSession "What should I fix first?"
      "network error" "").1 rfl,
   (ask_question_error_handling (genConst "Fix the SQL injection.") fixtureSession
      "What should I fix first?" "" "Fix the SQL injection.").2 rfl⟩

/-! ## Claim C10 -/

/-- **C10.** Without a `GEMINI_API_KEY` credential, constructing a
`QASession` fails (the `GeminiClient` constructor's error propagates), while
the `AIQualityAnalyzer` constructor catches the same failure and stores no
client, every batch call then returns the empty sequence, and the static
pipeline still produces a Report for any non-empty file list. -/
theorem qa_requires_credential_analyzer_degrades (report : Report)
    (files batch : List CodeFile) (gen : String → Except String String)
    (times : Nat → Nat) (nowIso : String) (now : Nat) (fs : List CodeFile)
    (hfs : fs ≠ []) :
    QASession.mkSession none report files =
      .error "GEMINI_API_KEY environment variable is required" ∧
    (AIQualityAnalyzer.mkAnalyzer none).geminiClient = none ∧
    AIQualityAnalyzer.analyzeBatch gen now
      (AIQualityAnalyzer.mkAnalyzer none).geminiClient batch = [] ∧
    (QualityEngine.analyzeFiles gen times nowIso none fs).isOk = true := by
  refine ⟨rfl, rfl, rfl, ?_⟩
  unfold QualityEngine.analyzeFiles
  rw [if_neg (by simpa [List.length_eq_zero] using hfs)]
  rfl

/-- Witness for C10: the fixture report and a one-file analysis set. -/
theorem qa_requires_credential_analyzer_degrades_witness :
    QASession.mkSession none c4bReport [c4bFile] =
      .error "GEMINI_API_KEY environment variable is required" ∧
    (AIQualityAnalyzer.mkAnalyzer none).geminiClient = none ∧
    AIQualityAnalyzer.analyzeBatch genFail 0
      (AIQualityAnalyzer.mkAnalyzer none).geminiClient [c4bFile] = [] ∧
    (QualityEngine.analyzeFiles genFail times0 iso0 none [c4File]).isOk = true :=
  qa_requires_credential_analyzer_degrades c4bReport [c4bFile] [c4bFile] genFail
    times0 iso0 0 [c4File] (by simp)

/-- Witness for C8: the `c5File` fixture with the issues of its own
pipeline run. -/
theorem metrics_match_spec_and_clamped_witness :
    QualityEngine.calculateMetrics [c5File] c5Report.issues =
      metricsSpec [c5File] c5Report.issues ∧
    0 ≤ (QualityEngine.calculateMetrics [c5File] c5Report.issues).codeComplexity ∧
    (QualityEngine.calculateMetrics [c5File] c5Report.issues).codeComplexity ≤ 10 ∧
    0 ≤ (QualityEngine.calculateMetrics [c5File] c5Report.issues).testCoverage ∧
    (QualityEngine.calculateMetrics [c5File] c5Report.issues).testCoverage ≤ 100 ∧
    0 ≤ (QualityEngine.calculateMetrics [c5File] c5Report.issues).duplicationPercentage ∧
    (QualityEngine.calculateMetrics [c5File] c5Report.issues).duplicationPercentage ≤ 50 ∧
    0 ≤ (QualityEngine.calculateMetrics [c5File] c5Report.issues).maintainabilityIndex ∧
    (QualityEngine.calculateMetrics [c5File] c5Report.issues).maintainabilityIndex ≤ 100 :=
  metrics_match_spec_and_clamped [c5File] c5Report.issues (by decide)

end CQA
